import Mathlib

/-!
Verification of the Huawei eSDK K8S CSI plugin's storage control-plane core
(`storage/oceanstor/volume/base.go`, `connector/nfs/nfs_helper.go`, and the
`proto` package) against its natural-language specification.

The Go code is shallowly embedded: the array REST client is an abstract
oracle, operations run in a state monad whose state is the chronological
trace of client calls, `map[string]interface{}` parameter maps become
association lists over a `Value` type, and array attribute maps become
association lists of strings.
-/

namespace HuaweiCSI

/-- Which client a call goes to: the local array, the HyperMetro remote
array, or the replication remote array. -/
inductive ClientId where
  | local
  | metroRemote
  | replicaRemote
deriving DecidableEq, Repr

/-- An array-side attribute map (a decoded REST response): upper-case
string keys mapped to string values, as consumed by the Go code via
type assertions to `string`. -/
abbrev Obj := List (String × String)

/-- Looks a key up in an attribute map. -/
def Obj.lookupKey : Obj → String → Option String
  | [], _ => none
  | (k, v) :: rest, key => if k = key then some v else Obj.lookupKey rest key

/-- `o["k"].(string)` when the surrounding Go ignores absence: missing
keys yield the empty string (the Go zero value). -/
def Obj.getS (o : Obj) (k : String) : String :=
  (o.lookupKey k).getD ""

/-- A validated QoS parameter map (`map[string]int` in Go). -/
abbrev QosMap := List (String × Int)

/-- A dynamic value stored in a `map[string]interface{}` parameter map.
Only the payload types the embedded code stores or asserts are covered. -/
inductive Value where
  | s (v : String)
  | n (v : Int)
  | b (v : Bool)
  | strs (v : List String)
  | qos (v : QosMap)
  | cliRef (v : ClientId)
  | obj (v : Obj)
deriving DecidableEq, Repr

/-- A `map[string]interface{}` parameter / task-result map. The head of
the list is the most recent write, so `lookup` sees the latest value,
matching Go map assignment. -/
abbrev Params := List (String × Value)

/-- Map lookup (most recent write wins). -/
def Params.lookup : Params → String → Option Value
  | [], _ => none
  | (k, v) :: rest, key => if k = key then some v else Params.lookup rest key

/-- Map assignment `params[k] = v`. -/
def Params.set (p : Params) (k : String) (v : Value) : Params := (k, v) :: p

/-- The two-value type assertion `params[k].(string)`. -/
def Params.lookupStr (p : Params) (k : String) : Option String :=
  match p.lookup k with
  | some (.s v) => some v
  | _ => none

/-- The two-value type assertion `params[k].(int)` / `.(int64)`. -/
def Params.lookupInt (p : Params) (k : String) : Option Int :=
  match p.lookup k with
  | some (.n v) => some v
  | _ => none

/-- The two-value type assertion `params[k].(bool)`. -/
def Params.lookupBool (p : Params) (k : String) : Option Bool :=
  match p.lookup k with
  | some (.b v) => some v
  | _ => none

/-- The two-value type assertion for a stored client reference. -/
def Params.lookupCli (p : Params) (k : String) : Option ClientId :=
  match p.lookup k with
  | some (.cliRef v) => some v
  | _ => none

/-- The two-value type assertion `params[k].(map[string]int)`. -/
def Params.lookupQos (p : Params) (k : String) : Option QosMap :=
  match p.lookup k with
  | some (.qos v) => some v
  | _ => none

/-- The two-value type assertion `params[k].([]string)`. -/
def Params.lookupStrs (p : Params) (k : String) : Option (List String) :=
  match p.lookup k with
  | some (.strs v) => some v
  | _ => none

theorem Params.lookup_set_ne (p : Params) (k k' : String) (v : Value) (h : k ≠ k') :
    (p.set k v).lookup k' = p.lookup k' := by
  simp [Params.set, Params.lookup, h]

/-- Parses an unsigned decimal digit string; `none` on the empty string or
any non-digit character. -/
def parseDigits (cs : List Char) : Option Nat :=
  match cs with
  | [] => none
  | _ =>
    cs.foldl (fun acc c =>
      match acc with
      | none => none
      | some m => if c.isDigit then some (m * 10 + (c.toNat - 48)) else none)
      (some 0)

/-- Go's `strconv.Atoi` / `strconv.ParseInt(s, 10, 64)`: an optional sign
followed by decimal digits; `none` models a parse error. -/
def goAtoi (s : String) : Option Int :=
  match s.data with
  | '+' :: rest => (parseDigits rest).map Int.ofNat
  | '-' :: rest => (parseDigits rest).map (fun m => -(Int.ofNat m))
  | cs => (parseDigits cs).map Int.ofNat

/-- Whether `pat` is a prefix of `s` (on character lists). -/
def startsWithChars : List Char → List Char → Bool
  | [], _ => true
  | _ :: _, [] => false
  | p :: ps, c :: cs => p = c && startsWithChars ps cs

/-- Whether `pat` occurs inside `s` (on character lists). -/
def containsChars : List Char → List Char → Bool
  | [], pat => startsWithChars pat []
  | c :: rest, pat => startsWithChars pat (c :: rest) || containsChars rest pat

/-- Go's `strings.Contains s pat`. -/
def substrOccurs (s pat : String) : Bool :=
  containsChars s.data pat.data

/-- Splits a character list on a single separator character, keeping
empty fields — the behaviour of Go's `strings.Split` for a one-character
separator. -/
def splitOnChar (sep : Char) : List Char → List (List Char)
  | [] => [[]]
  | c :: rest =>
    let r := splitOnChar sep rest
    if c = sep then [] :: r
    else
      match r with
      | [] => [[c]]
      | w :: ws => (c :: w) :: ws

/-- Go's `strings.Split s sep` for a one-character separator. -/
def goSplit (s : String) (sep : Char) : List String :=
  (splitOnChar sep s.data).map (fun cs => String.mk cs)

/-- An ASCII whitespace character. -/
def isSpaceChar (c : Char) : Bool :=
  c = ' ' || c = '\t' || c = '\n' || c = '\r'

/-- Go's `strings.TrimSpace`. -/
def goTrim (s : String) : String :=
  String.mk (((s.data.dropWhile isSpaceChar).reverse.dropWhile isSpaceChar).reverse)

/-- Result of a fallible Go call: either a value or an `error`. -/
abbrev ERes (α : Type) := Except String α

/-- A computation that issues calls of type `σ` against the outside world:
it threads the chronological trace of calls made so far and may fail.
The trace survives failure, so theorems can speak about the calls issued
before an error was returned. -/
def TraceM (σ : Type) (α : Type) := List σ → List σ × Except String α

namespace TraceM

def pure (a : α) : TraceM σ α := fun t => (t, .ok a)

def bind (m : TraceM σ α) (f : α → TraceM σ β) : TraceM σ β := fun t =>
  match m t with
  | (t', .ok a) => f a t'
  | (t', .error e) => (t', .error e)

/-- Returning a Go `error` value (or a panic aborting the flow). -/
def fail (e : String) : TraceM σ α := fun t => (t, .error e)

/-- Lifts a pure fallible computation. -/
def ofExcept (r : ERes α) : TraceM σ α := fun t => (t, r)

/-- Records one call in the trace. -/
def record (c : σ) : TraceM σ Unit := fun t => (t ++ [c], .ok ())

/-- Runs a sub-computation discarding its error, as Go does when it
ignores the returned `error` of a cleanup call. -/
def ignoring (m : TraceM σ α) : TraceM σ Unit := fun t => ((m t).1, .ok ())

instance : Monad (TraceM σ) where
  pure := TraceM.pure
  bind := TraceM.bind

theorem bind_def (m : TraceM σ α) (f : α → TraceM σ β) (t : List σ) :
    (m >>= f) t = match m t with
      | (t', .ok a) => f a t'
      | (t', .error e) => (t', .error e) := rfl

theorem pure_def (a : α) (t : List σ) : (Pure.pure a : TraceM σ α) t = (t, .ok a) := rfl

end TraceM

/-- Payload of `CreateReplicationPair` as assembled by
`Base.createReplicationPair` (wire constants included). -/
structure RepPairData where
  localResID : String
  localResType : Int
  remoteDeviceID : String
  remoteResID : String
  replicationModel : Int
  synchronizeType : Int
  speed : Int
  timingVal : Option Value
  vStorePairID : Option Value
deriving DecidableEq, Repr

/-- Payload of `CreateHyperMetroPair` as assembled by
`SAN.createHyperMetro` (wire constants included). -/
structure HMPairData where
  domainID : String
  hcResourceType : Int
  isFirstSync : Bool
  localObjID : String
  remoteObjID : String
  speed : Int
deriving DecidableEq, Repr

/-- One array client method invocation, with its arguments. `smart...`
entries are the smartx-package helpers (QoS / snapshot wrappers), treated
as atomic array capabilities. -/
inductive CallKind where
  | getPoolByName (name : String)
  | getLunByName (name : String)
  | getLunByID (id : String)
  | createLun (payload : Params)
  | deleteLun (id : String)
  | extendLun (id : String) (newSize : Int)
  | getLunSnapshotByName (name : String)
  | createLunSnapshot (name lunID : String)
  | activateLunSnapshot (id : String)
  | deactivateLunSnapshot (id : String)
  | deleteLunSnapshot (id : String)
  | createClonePair (srcID dstID : String) (speed : Int)
  | syncClonePair (id : String)
  | deleteClonePair (id : String)
  | getClonePairInfo (id : String)
  | createLunCopy (name snapshotID dstLunID : String) (speed : Int)
  | startLunCopy (id : String)
  | stopLunCopy (id : String)
  | getLunCopyByName (name : String)
  | getLunCopyByID (id : String)
  | deleteLunCopy (id : String)
  | createHyperMetroPair (data : HMPairData)
  | syncHyperMetroPair (id : String)
  | stopHyperMetroPair (id : String)
  | deleteHyperMetroPair (id : String) (onlineDelete : Bool)
  | getHyperMetroPair (id : String)
  | getHyperMetroPairByLocalObjID (id : String)
  | getHyperMetroDomainByName (name : String)
  | createReplicationPair (data : RepPairData)
  | syncReplicationPair (id : String)
  | splitReplicationPair (id : String)
  | deleteReplicationPair (id : String)
  | getReplicationPairByResID (resID : String) (resType : Int)
  | getRemoteDeviceBySN (sn : String)
  | getSystem
  | getApplicationTypeByName (name : String)
  | smartCreateQos (objID objType : String) (q : QosMap)
  | smartDeleteQos (qosID objID objType : String)
  | smartCreateLunSnapshot (name lunID : String)
  | smartDeleteLunSnapshot (id : String)
deriving DecidableEq, Repr

/-- True for the calls that only read array state; false for every call
that creates, mutates or deletes an array object. -/
def CallKind.isRead : CallKind → Bool
  | .getPoolByName _ => true
  | .getLunByName _ => true
  | .getLunByID _ => true
  | .getLunSnapshotByName _ => true
  | .getClonePairInfo _ => true
  | .getLunCopyByName _ => true
  | .getLunCopyByID _ => true
  | .getHyperMetroPair _ => true
  | .getHyperMetroPairByLocalObjID _ => true
  | .getHyperMetroDomainByName _ => true
  | .getReplicationPairByResID _ _ => true
  | .getRemoteDeviceBySN _ => true
  | .getSystem => true
  | .getApplicationTypeByName _ => true
  | _ => false

/-- A trace entry: which client was called, and with what. -/
abbrev TraceEntry := ClientId × CallKind

abbrev Trace := List TraceEntry

/-- The orchestrator's monad: array calls are recorded in the trace. -/
abbrev M := TraceM TraceEntry

/-- The array client oracle (the out-of-scope REST binding). Each method
receives the trace of calls made so far, so an oracle can model array
state that evolves as the flow acts on it (for example a clone pair that
reaches the normal state only after it was synced). -/
structure Client where
  getPoolByName : Trace → String → ERes (Option Obj)
  getLunByName : Trace → String → ERes (Option Obj)
  getLunByID : Trace → String → ERes Obj
  createLun : Trace → Params → ERes Obj
  deleteLun : Trace → String → ERes Unit
  extendLun : Trace → String → Int → ERes Unit
  getLunSnapshotByName : Trace → String → ERes (Option Obj)
  createLunSnapshot : Trace → String → String → ERes Obj
  activateLunSnapshot : Trace → String → ERes Unit
  deactivateLunSnapshot : Trace → String → ERes Unit
  deleteLunSnapshot : Trace → String → ERes Unit
  createClonePair : Trace → String → String → Int → ERes Obj
  syncClonePair : Trace → String → ERes Unit
  deleteClonePair : Trace → String → ERes Unit
  getClonePairInfo : Trace → String → ERes (Option Obj)
  createLunCopy : Trace → String → String → String → Int → ERes Obj
  startLunCopy : Trace → String → ERes Unit
  stopLunCopy : Trace → String → ERes Unit
  getLunCopyByName : Trace → String → ERes (Option Obj)
  getLunCopyByID : Trace → String → ERes Obj
  deleteLunCopy : Trace → String → ERes Unit
  createHyperMetroPair : Trace → HMPairData → ERes Obj
  syncHyperMetroPair : Trace → String → ERes Unit
  stopHyperMetroPair : Trace → String → ERes Unit
  deleteHyperMetroPair : Trace → String → Bool → ERes Unit
  getHyperMetroPair : Trace → String → ERes (Option Obj)
  getHyperMetroPairByLocalObjID : Trace → String → ERes (Option Obj)
  getHyperMetroDomainByName : Trace → String → ERes (Option Obj)
  createReplicationPair : Trace → RepPairData → ERes Obj
  syncReplicationPair : Trace → String → ERes Unit
  splitReplicationPair : Trace → String → ERes Unit
  deleteReplicationPair : Trace → String → ERes Unit
  getReplicationPairByResID : Trace → String → Int → ERes (List Obj)
  getRemoteDeviceBySN : Trace → String → ERes (Option Obj)
  getSystem : Trace → ERes Obj
  getApplicationTypeByName : Trace → String → ERes String
  smartCreateQos : Trace → String → String → QosMap → ERes String
  smartDeleteQos : Trace → String → String → String → ERes Unit
  smartCreateLunSnapshot : Trace → String → String → ERes Obj
  smartDeleteLunSnapshot : Trace → String → ERes Unit

/-- Modelled from the spec: pure helpers of the repository that are not
under `src/` — the deterministic name manglers `utils.GetLunName` /
`utils.GetSnapshotName`, the smartx QoS parameter parser and validator
(`smartx.ExtractQoSParameters` / `smartx.ValidateQoSParameters`, which
take the product model), and `json.Unmarshal` of the `HASRSSOBJECT`
mirror-flags JSON into a `map[string]string` (unmarshal failures leave
the map empty, as the Go callers ignore the error). -/
structure Env where
  getLunName : String → String
  getSnapshotName : String → String
  extractQoS : String → String → ERes QosMap
  validateQoS : String → QosMap → ERes QosMap
  unmarshalRss : String → List (String × String)
  unmarshalStrList : String → List String

/-- The SAN volume orchestrator: local client, the two optional remote
clients, the product family string and the pure-helper environment. -/
structure SAN where
  cli : Client
  metroRemoteCli : Option Client
  replicaRemoteCli : Option Client
  product : String
  env : Env

/-- Resolves a client reference; `none` models a nil Go interface. -/
def SAN.clientOf (san : SAN) : ClientId → Option Client
  | .local => some san.cli
  | .metroRemote => san.metroRemoteCli
  | .replicaRemote => san.replicaRemoteCli

/-- Issues one call against the client `cid`: records it in the trace and
consults the oracle. Calling through a nil client is the Go nil-interface
panic: it fails without reaching the array, so nothing is recorded. -/
def SAN.call (san : SAN) (cid : ClientId) (k : CallKind)
    (f : Client → Trace → ERes α) : M α := fun t =>
  match san.clientOf cid with
  | none => (t, .error "panic: call through nil client")
  | some c => (t ++ [(cid, k)], f c t)

def SAN.cGetPoolByName (san : SAN) (cid : ClientId) (name : String) : M (Option Obj) :=
  san.call cid (.getPoolByName name) (fun c t => c.getPoolByName t name)

def SAN.cGetLunByName (san : SAN) (cid : ClientId) (name : String) : M (Option Obj) :=
  san.call cid (.getLunByName name) (fun c t => c.getLunByName t name)

def SAN.cGetLunByID (san : SAN) (cid : ClientId) (id : String) : M Obj :=
  san.call cid (.getLunByID id) (fun c t => c.getLunByID t id)

def SAN.cCreateLun (san : SAN) (cid : ClientId) (payload : Params) : M Obj :=
  san.call cid (.createLun payload) (fun c t => c.createLun t payload)

def SAN.cDeleteLun (san : SAN) (cid : ClientId) (id : String) : M Unit :=
  san.call cid (.deleteLun id) (fun c t => c.deleteLun t id)

def SAN.cExtendLun (san : SAN) (cid : ClientId) (id : String) (newSize : Int) : M Unit :=
  san.call cid (.extendLun id newSize) (fun c t => c.extendLun t id newSize)

def SAN.cGetLunSnapshotByName (san : SAN) (cid : ClientId) (name : String) : M (Option Obj) :=
  san.call cid (.getLunSnapshotByName name) (fun c t => c.getLunSnapshotByName t name)

def SAN.cCreateLunSnapshot (san : SAN) (cid : ClientId) (name lunID : String) : M Obj :=
  san.call cid (.createLunSnapshot name lunID) (fun c t => c.createLunSnapshot t name lunID)

def SAN.cActivateLunSnapshot (san : SAN) (cid : ClientId) (id : String) : M Unit :=
  san.call cid (.activateLunSnapshot id) (fun c t => c.activateLunSnapshot t id)

def SAN.cDeactivateLunSnapshot (san : SAN) (cid : ClientId) (id : String) : M Unit :=
  san.call cid (.deactivateLunSnapshot id) (fun c t => c.deactivateLunSnapshot t id)

def SAN.cDeleteLunSnapshot (san : SAN) (cid : ClientId) (id : String) : M Unit :=
  san.call cid (.deleteLunSnapshot id) (fun c t => c.deleteLunSnapshot t id)

def SAN.cCreateClonePair (san : SAN) (cid : ClientId) (srcID dstID : String)
    (speed : Int) : M Obj :=
  san.call cid (.createClonePair srcID dstID speed)
    (fun c t => c.createClonePair t srcID dstID speed)

def SAN.cSyncClonePair (san : SAN) (cid : ClientId) (id : String) : M Unit :=
  san.call cid (.syncClonePair id) (fun c t => c.syncClonePair t id)

def SAN.cDeleteClonePair (san : SAN) (cid : ClientId) (id : String) : M Unit :=
  san.call cid (.deleteClonePair id) (fun c t => c.deleteClonePair t id)

def SAN.cGetClonePairInfo (san : SAN) (cid : ClientId) (id : String) : M (Option Obj) :=
  san.call cid (.getClonePairInfo id) (fun c t => c.getClonePairInfo t id)

def SAN.cCreateLunCopy (san : SAN) (cid : ClientId) (name snapshotID dstLunID : String)
    (speed : Int) : M Obj :=
  san.call cid (.createLunCopy name snapshotID dstLunID speed)
    (fun c t => c.createLunCopy t name snapshotID dstLunID speed)

def SAN.cStartLunCopy (san : SAN) (cid : ClientId) (id : String) : M Unit :=
  san.call cid (.startLunCopy id) (fun c t => c.startLunCopy t id)

def SAN.cStopLunCopy (san : SAN) (cid : ClientId) (id : String) : M Unit :=
  san.call cid (.stopLunCopy id) (fun c t => c.stopLunCopy t id)

def SAN.cGetLunCopyByName (san : SAN) (cid : ClientId) (name : String) : M (Option Obj) :=
  san.call cid (.getLunCopyByName name) (fun c t => c.getLunCopyByName t name)

def SAN.cGetLunCopyByID (san : SAN) (cid : ClientId) (id : String) : M Obj :=
  san.call cid (.getLunCopyByID id) (fun c t => c.getLunCopyByID t id)

def SAN.cDeleteLunCopy (san : SAN) (cid : ClientId) (id : String) : M Unit :=
  san.call cid (.deleteLunCopy id) (fun c t => c.deleteLunCopy t id)

def SAN.cCreateHyperMetroPair (san : SAN) (cid : ClientId) (data : HMPairData) : M Obj :=
  san.call cid (.createHyperMetroPair data) (fun c t => c.createHyperMetroPair t data)

def SAN.cSyncHyperMetroPair (san : SAN) (cid : ClientId) (id : String) : M Unit :=
  san.call cid (.syncHyperMetroPair id) (fun c t => c.syncHyperMetroPair t id)

def SAN.cStopHyperMetroPair (san : SAN) (cid : ClientId) (id : String) : M Unit :=
  san.call cid (.stopHyperMetroPair id) (fun c t => c.stopHyperMetroPair t id)

def SAN.cDeleteHyperMetroPair (san : SAN) (cid : ClientId) (id : String)
    (onlineDelete : Bool) : M Unit :=
  san.call cid (.deleteHyperMetroPair id onlineDelete)
    (fun c t => c.deleteHyperMetroPair t id onlineDelete)

def SAN.cGetHyperMetroPair (san : SAN) (cid : ClientId) (id : String) : M (Option Obj) :=
  san.call cid (.getHyperMetroPair id) (fun c t => c.getHyperMetroPair t id)

def SAN.cGetHyperMetroPairByLocalObjID (san : SAN) (cid : ClientId)
    (id : String) : M (Option Obj) :=
  san.call cid (.getHyperMetroPairByLocalObjID id)
    (fun c t => c.getHyperMetroPairByLocalObjID t id)

def SAN.cGetHyperMetroDomainByName (san : SAN) (cid : ClientId)
    (name : String) : M (Option Obj) :=
  san.call cid (.getHyperMetroDomainByName name)
    (fun c t => c.getHyperMetroDomainByName t name)

def SAN.cCreateReplicationPair (san : SAN) (cid : ClientId) (data : RepPairData) : M Obj :=
  san.call cid (.createReplicationPair data) (fun c t => c.createReplicationPair t data)

def SAN.cSyncReplicationPair (san : SAN) (cid : ClientId) (id : String) : M Unit :=
  san.call cid (.syncReplicationPair id) (fun c t => c.syncReplicationPair t id)

def SAN.cSplitReplicationPair (san : SAN) (cid : ClientId) (id : String) : M Unit :=
  san.call cid (.splitReplicationPair id) (fun c t => c.splitReplicationPair t id)

def SAN.cDeleteReplicationPair (san : SAN) (cid : ClientId) (id : String) : M Unit :=
  san.call cid (.deleteReplicationPair id) (fun c t => c.deleteReplicationPair t id)

def SAN.cGetReplicationPairByResID (san : SAN) (cid : ClientId) (resID : String)
    (resType : Int) : M (List Obj) :=
  san.call cid (.getReplicationPairByResID resID resType)
    (fun c t => c.getReplicationPairByResID t resID resType)

def SAN.cGetRemoteDeviceBySN (san : SAN) (cid : ClientId) (sn : String) : M (Option Obj) :=
  san.call cid (.getRemoteDeviceBySN sn) (fun c t => c.getRemoteDeviceBySN t sn)

def SAN.cGetSystem (san : SAN) (cid : ClientId) : M Obj :=
  san.call cid .getSystem (fun c t => c.getSystem t)

def SAN.cGetApplicationTypeByName (san : SAN) (cid : ClientId) (name : String) : M String :=
  san.call cid (.getApplicationTypeByName name)
    (fun c t => c.getApplicationTypeByName t name)

def SAN.cSmartCreateQos (san : SAN) (cid : ClientId) (objID objType : String)
    (q : QosMap) : M String :=
  san.call cid (.smartCreateQos objID objType q)
    (fun c t => c.smartCreateQos t objID objType q)

def SAN.cSmartDeleteQos (san : SAN) (cid : ClientId) (qosID objID objType : String) : M Unit :=
  san.call cid (.smartDeleteQos qosID objID objType)
    (fun c t => c.smartDeleteQos t qosID objID objType)

def SAN.cSmartCreateLunSnapshot (san : SAN) (cid : ClientId) (name lunID : String) : M Obj :=
  san.call cid (.smartCreateLunSnapshot name lunID)
    (fun c t => c.smartCreateLunSnapshot t name lunID)

def SAN.cSmartDeleteLunSnapshot (san : SAN) (cid : ClientId) (id : String) : M Unit :=
  san.call cid (.smartDeleteLunSnapshot id) (fun c t => c.smartDeleteLunSnapshot t id)

/-! ### Status constants

Modelled from the spec: the named status constants referenced by
`base.go` live in a constants file that is not under `src/`. Their exact
wire values are immaterial to the control flow; distinct symbolic strings
are used, matching the classification names in the code. -/

def lunCopyHealthStatusFault : String := "fault"
def lunCopyRunningStatusQueuing : String := "queuing"
def lunCopyRunningStatusCopying : String := "copying"
def lunCopyRunningStatusStop : String := "stop"
def lunCopyRunningStatusPaused : String := "paused"
def clonePairHealthStatusFault : String := "fault"
def clonePairRunningStatusNormal : String := "normal"
def clonePairRunningStatusSyncing : String := "syncing"
def clonePairRunningStatusInitializing : String := "initializing"
def clonePairRunningStatusUnsyncing : String := "unsyncing"
def hyperMetroPairHealthStatusFault : String := "fault"
def hyperMetroPairRunningStatusToSync : String := "to_sync"
def hyperMetroPairRunningStatusSyncing : String := "syncing"
def hyperMetroPairRunningStatusUnknown : String := "unknown"
def hyperMetroPairRunningStatusPause : String := "pause"
def hyperMetroPairRunningStatusError : String := "error"
def hyperMetroPairRunningStatusInvalid : String := "invalid"
def hyperMetroPairRunningStatusNormal : String := "normal"
def hyperMetroDomainRunningStatusNormal : String := "normal"
def snapshotRunningStatusActive : String := "active"
def snapshotRunningStatusInactive : String := "inactive"
def replicationPairRunningStatusNormal : String := "normal"
def replicationPairRunningStatusSync : String := "sync"
def remoteDeviceHealthStatus : String := "normal"
def remoteDeviceRunningStatusLinkUp : String := "link_up"

/-- Modelled from the spec: `utils.WaitUntil(predicate, budget, interval)`
(not under `src/`) polls the predicate every interval until it reports
done, propagating predicate errors immediately and failing with a timeout
once the budget is exhausted. Modelled with fuel = budget / interval. -/
def waitUntil (pred : M Bool) : Nat → M Unit
  | 0 => TraceM.fail "timeout"
  | n + 1 => do
    let done ← pred
    if done then TraceM.pure () else waitUntil pred n

/-- 6 hours at a 5 second interval. -/
def sixHourFuel : Nat := 4320

theorem sixHourFuel_succ : sixHourFuel = 4319 + 1 := rfl

theorem waitUntil_succ (pred : M Bool) (n : Nat) :
    waitUntil pred (n + 1) = pred >>= fun done =>
      if done then TraceM.pure () else waitUntil pred n := rfl

/-- A wait whose predicate reports done on the first poll finishes
immediately (for any non-zero fuel). -/
theorem waitUntil_done (pred : M Bool) (t t' : List TraceEntry)
    (h : pred t = (t', .ok true)) (n : Nat) (hn : n ≠ 0) :
    waitUntil pred n t = (t', .ok ()) := by
  cases n with
  | zero => exact absurd rfl hn
  | succ m => simp [waitUntil, Bind.bind, TraceM.bind, h, TraceM.pure]

/-- The volume handle returned to the CSI layer (`utils.Volume`). -/
structure Volume where
  name : String
  lunWWN : Option String
deriving DecidableEq, Repr

/-- Result of `CreateSnapshot` handed back to the caller. In Go this is a
`map[string]interface{}` with exactly the keys `CreationTime`,
`SizeBytes` and `ParentID`; here those three fixed keys are the fields of
a record. -/
structure SnapshotInfo where
  CreationTime : Int
  SizeBytes : Int
  ParentID : String
deriving DecidableEq, Repr

/-! ### Task-flow engine

Modelled from the spec: `utils/taskflow` is not under `src/`. Ordered
named steps run sequentially; each forward action receives the parameter
map and the accumulated result map and returns a result delta that is
merged into the accumulator (later writes win). Because Go maps are
references, a forward action can also mutate the parameter map, so the
embedded forward action returns the updated parameter map together with
its delta. On a forward error the flow stops; an explicit revert pass
then runs the revert callback of every previously completed task in
reverse insertion order on the accumulated result, ignoring revert
errors. -/
structure FlowTask where
  name : String
  forward : Params → Params → M (Params × Params)
  revert : Option (Params → M Unit)

/-- Runs revert callbacks (already in reverse insertion order), ignoring
their errors. -/
def runReverts : List FlowTask → Params → M Unit
  | [], _ => TraceM.pure ()
  | task :: rest, res => fun t =>
    match task.revert with
    | none => runReverts rest res t
    | some rv =>
      let (t', _) := rv res t
      runReverts rest res t'

/-- Sequentially runs forward actions, accumulating results and the list
of completed tasks (most recent first). -/
def runFlowAux : List FlowTask → Params → Params → List FlowTask →
    M (Params × Params × List FlowTask)
  | [], ps, res, done => TraceM.pure (ps, res, done)
  | task :: rest, ps, res, done => fun t =>
    match task.forward ps res t with
    | (t', .ok (ps', delta)) => runFlowAux rest ps' (delta ++ res) (task :: done) t'
    | (t', .error e) => (t', .error e)

/-- `taskflow.Run` where the caller does not call `Revert` on failure
(Delete, Expand, DeleteSnapshot). -/
def runFlowNoRevert (tasks : List FlowTask) (ps : Params) : M (Params × Params) := do
  let (ps', res, _) ← runFlowAux tasks ps [] []
  TraceM.pure (ps', res)

/-- Worker for [runFlowWithRevert]: on a forward error, reverts the
completed tasks and propagates the original error. -/
def runFlowAuxRevert : List FlowTask → Params → Params → List FlowTask →
    M (Params × Params)
  | [], ps, res, _ => TraceM.pure (ps, res)
  | task :: rest, ps, res, done => fun t =>
    match task.forward ps res t with
    | (t', .ok (ps', delta)) => runFlowAuxRevert rest ps' (delta ++ res) (task :: done) t'
    | (t', .error e) =>
      let (t'', _) := runReverts done res t'
      (t'', .error e)

/-- `taskflow.Run` followed by `Revert()` on failure (Create,
CreateSnapshot): completed tasks are reverted in reverse insertion order
and the original error is returned. -/
def runFlowWithRevert (tasks : List FlowTask) (ps : Params) : M (Params × Params) :=
  runFlowAuxRevert tasks ps [] []

/-- Runs `m`; on error, runs `cleanup` (discarding its outcome, as the Go
code ignores the error of such cleanup calls) and returns the original
error. -/
def TraceM.onError (m : TraceM σ α) (cleanup : TraceM σ β) : TraceM σ α := fun t =>
  match m t with
  | (t', .ok a) => (t', .ok a)
  | (t', .error e) =>
    let (t'', _) := cleanup t'
    (t'', .error e)

/-- The single-value assertion `o[k].(string)` on an attribute map: a Go
panic (missing key) becomes an aborting error. -/
def Obj.strM (o : Obj) (k : String) : M String :=
  match o.lookupKey k with
  | some v => TraceM.pure v
  | none => TraceM.fail ("panic: missing attribute " ++ k)

/-- The single-value assertion `params[k].(string)`. -/
def Params.str (p : Params) (k : String) : M String :=
  match p.lookupStr k with
  | some v => TraceM.pure v
  | none => TraceM.fail ("panic: interface conversion for " ++ k)

/-- The single-value assertion `params[k].(int)` / `.(int64)`. -/
def Params.int (p : Params) (k : String) : M Int :=
  match p.lookupInt k with
  | some v => TraceM.pure v
  | none => TraceM.fail ("panic: interface conversion for " ++ k)

/-- The single-value assertion `params[k].(client.BaseClientInterface)`. -/
def Params.cli (p : Params) (k : String) : M ClientId :=
  match p.lookupCli k with
  | some v => TraceM.pure v
  | none => TraceM.fail ("panic: interface conversion for " ++ k)

/-- The single-value assertion `params[k].([]string)`. -/
def Params.strList (p : Params) (k : String) : M (List String) :=
  match p.lookupStrs k with
  | some v => TraceM.pure v
  | none => TraceM.fail ("panic: interface conversion for " ++ k)

/-! ### `Base` methods (`storage/oceanstor/volume/base.go`, first part) -/

/-- `Base.getAllocType`: string `"thick"` becomes 0, anything else
(including an absent or non-string value) becomes 1. -/
def Base.getAllocType (params : Params) : ERes Params :=
  match params.lookupStr "alloctype" with
  | some v =>
    if v = "thick" then .ok (params.set "alloctype" (.n 0))
    else .ok (params.set "alloctype" (.n 1))
  | none => .ok (params.set "alloctype" (.n 1))

/-- `Base.getCloneSpeed`: only applied when one of `clonefrom`,
`sourcevolumename`, `sourcesnapshotname` is present as a string; a
non-empty string must parse to an integer in [1,4], otherwise the
default 3 is used. -/
def Base.getCloneSpeed (params : Params) : ERes Params :=
  let cloneExist := (params.lookupStr "clonefrom").isSome
  let srcVolumeExist := (params.lookupStr "sourcevolumename").isSome
  let srcSnapshotExist := (params.lookupStr "sourcesnapshotname").isSome
  if !(cloneExist || srcVolumeExist || srcSnapshotExist) then .ok params
  else
    match params.lookupStr "clonespeed" with
    | some v =>
      if v ≠ "" then
        match goAtoi v with
        | some speed =>
          if speed < 1 ∨ speed > 4 then .error ("error config " ++ v ++ " for clonespeed")
          else .ok (params.set "clonespeed" (.n speed))
        | none => .error ("error config " ++ v ++ " for clonespeed")
      else .ok (params.set "clonespeed" (.n 3))
    | none => .ok (params.set "clonespeed" (.n 3))

/-- `Base.getPoolID`: requires `storagepool` and resolves it through the
local client. -/
def Base.getPoolID (san : SAN) (params : Params) : M Params := do
  match params.lookupStr "storagepool" with
  | none => TraceM.fail "must specify storage pool to create volume"
  | some poolName =>
    if poolName = "" then TraceM.fail "must specify storage pool to create volume"
    else do
      let pool? ← san.cGetPoolByName .local poolName
      match pool? with
      | none => TraceM.fail ("storage pool " ++ poolName ++ " doesn't exist")
      | some pool => do
        let poolID ← pool.strM "ID"
        TraceM.pure (params.set "poolID" (.s poolID))

/-- `Base.getQoS`: parse then validate the `qos` string (smartx package,
via the environment). -/
def Base.getQoS (san : SAN) (params : Params) : ERes Params :=
  match params.lookupStr "qos" with
  | some v =>
    if v ≠ "" then
      match san.env.extractQoS san.product v with
      | .error e => .error ("qos parameter " ++ v ++ " error: " ++ e)
      | .ok qos =>
        match san.env.validateQoS san.product qos with
        | .error e => .error ("validate qos parameters failed, error " ++ e)
        | .ok validatedQos => .ok (params.set "qos" (.qos validatedQos))
    else .ok params
  | none => .ok params

/-- `Base.commonPreCreate`: the four analyzers in order. -/
def Base.commonPreCreate (san : SAN) (params : Params) : M Params := do
  let params ← TraceM.ofExcept (Base.getAllocType params)
  let params ← TraceM.ofExcept (Base.getCloneSpeed params)
  let params ← Base.getPoolID san params
  TraceM.ofExcept (Base.getQoS san params)

/-- `Base.getRemotePoolID`. -/
def Base.getRemotePoolID (san : SAN) (params : Params) (remoteCli : ClientId) : M String := do
  match params.lookupStr "remotestoragepool" with
  | none => TraceM.fail "no remote pool is specified"
  | some remotePool =>
    if remotePool = "" then TraceM.fail "no remote pool is specified"
    else do
      let pool? ← san.cGetPoolByName remoteCli remotePool
      match pool? with
      | none => TraceM.fail ("remote storage pool " ++ remotePool ++ " doesn't exist")
      | some pool => pool.strM "ID"

/-- `Base.preExpandCheckCapacity` task: re-reads the local pool. -/
def Base.preExpandCheckCapacity (san : SAN) (params _res : Params) : M (Params × Params) := do
  let localParentName ← params.str "localParentName"
  let pool? ← san.cGetPoolByName .local localParentName
  match pool? with
  | none => TraceM.fail ("Get storage pool " ++ localParentName ++ " info error")
  | some _ => TraceM.pure (params, [])

/-- `Base.getSnapshotReturnInfo`: epoch seconds parsed from `TIMESTAMP`
(parse failures ignored, yielding 0), size = `snapshotSize` sectors × 512
bytes, and the snapshot's `PARENTID`. -/
def Base.getSnapshotReturnInfo (snapshot : Obj) (snapshotSize : Int) : SnapshotInfo :=
  { CreationTime := (goAtoi (snapshot.getS "TIMESTAMP")).getD 0
    SizeBytes := snapshotSize * 512
    ParentID := snapshot.getS "PARENTID" }

/-- `Base.createReplicationPair` task: builds the pair payload with the
wire constants `REPLICATIONMODEL=2`, `SYNCHRONIZETYPE=2`, `SPEED=4`,
creates and then syncs the pair (deleting it when the sync call fails). -/
def Base.createReplicationPair (san : SAN) (params res : Params) : M (Params × Params) := do
  let resType ← res.int "resType"
  let remoteDeviceID ← res.str "remoteDeviceID"
  let localID ← if resType = 11 then res.str "localLunID" else res.str "localFSID"
  let remoteID ← if resType = 11 then res.str "remoteLunID" else res.str "remoteFSID"
  let data : RepPairData :=
    { localResID := localID
      localResType := resType
      remoteDeviceID := remoteDeviceID
      remoteResID := remoteID
      replicationModel := 2
      synchronizeType := 2
      speed := 4
      timingVal := params.lookup "replicationSyncPeriod"
      vStorePairID := res.lookup "vStorePairID" }
  let pair ← san.cCreateReplicationPair .local data
  let pairID ← pair.strM "ID"
  TraceM.onError (san.cSyncReplicationPair .local pairID)
    (san.cDeleteReplicationPair .local pairID)
  TraceM.pure (params, [])

/-- `Base.getRemoteDeviceID`: the remote device must exist and be
healthy and linked up. -/
def Base.getRemoteDeviceID (san : SAN) (deviceSN : String) : M String := do
  let remoteDevice? ← san.cGetRemoteDeviceBySN .local deviceSN
  match remoteDevice? with
  | none => TraceM.fail ("Remote device of SN " ++ deviceSN ++ " does not exist")
  | some remoteDevice =>
    if remoteDevice.lookupKey "HEALTHSTATUS" ≠ some remoteDeviceHealthStatus ∨
        remoteDevice.lookupKey "RUNNINGSTATUS" ≠ some remoteDeviceRunningStatusLinkUp then
      TraceM.fail ("Remote device " ++ deviceSN ++ " status is not normal")
    else remoteDevice.strM "ID"

/-- `Base.getWorkLoadIDByName`. -/
def Base.getWorkLoadIDByName (san : SAN) (cid : ClientId)
    (workloadTypeName : String) : M String := do
  let workloadTypeID ← san.cGetApplicationTypeByName cid workloadTypeName
  if workloadTypeID = "" then
    TraceM.fail ("The workloadType " ++ workloadTypeName ++ " does not exist on storage")
  else TraceM.pure workloadTypeID

/-- `Base.setWorkLoadID`: resolves `applicationtype` (when present as a
string) to `workloadTypeID`. -/
def Base.setWorkLoadID (san : SAN) (cid : ClientId) (params : Params) : M Params := do
  match params.lookupStr "applicationtype" with
  | some val => do
    let workloadTypeID ← Base.getWorkLoadIDByName san cid val
    TraceM.pure (params.set "workloadTypeID" (.s workloadTypeID))
  | none => TraceM.pure params

/-- `Base.prepareVolObj`: the volume handle with the (possibly absent)
LUN WWN from the task-flow result. -/
def Base.prepareVolObj (params res : Params) : Volume :=
  { name := (params.lookupStr "name").getD ""
    lunWWN := res.lookupStr "lunWWN" }

/-- Converts error to `none`, for sites where the Go code tolerates a
failed lookup. -/
def TraceM.attempt (m : TraceM σ α) : TraceM σ (Option α) := fun t =>
  match m t with
  | (t', .ok a) => (t', .ok (some a))
  | (t', .error _) => (t', .ok none)

/-- `strconv.ParseInt` whose error is propagated by the caller. -/
def parseIntM (s : String) : M Int :=
  match goAtoi s with
  | some v => TraceM.pure v
  | none => TraceM.fail ("strconv.ParseInt: parsing " ++ s)

/-! ### `SAN` job-wait predicates (`base.go`, SAN part)

Each `WaitUntil` predicate is factored into the object fetch plus a pure
classification of the fetched object; the classification functions below
are line-for-line the predicate bodies of `waitLunCopyFinish`,
`waitClonePairFinish`, `waitHyperMetroSyncFinish` and
`waitSnapshotReady`. -/

/-- Predicate body of `SAN.waitLunCopyFinish`: a nil luncopy is terminal
success; fault health is an error; queuing/copying keeps polling;
stop/paused is an error; anything else is terminal success. -/
def lunCopyCheck (lunCopyName : String) (lunCopy? : Option Obj) : ERes Bool :=
  match lunCopy? with
  | none => .ok true
  | some lunCopy =>
    let healthStatus := lunCopy.getS "HEALTHSTATUS"
    if healthStatus = lunCopyHealthStatusFault then
      .error ("Luncopy " ++ lunCopyName ++ " is at fault status")
    else
      let runningStatus := lunCopy.getS "RUNNINGSTATUS"
      if runningStatus = lunCopyRunningStatusQueuing ∨
          runningStatus = lunCopyRunningStatusCopying then .ok false
      else if runningStatus = lunCopyRunningStatusStop ∨
          runningStatus = lunCopyRunningStatusPaused then
        .error ("Luncopy " ++ lunCopyName ++ " is stopped")
      else .ok true

/-- Predicate body of `SAN.waitClonePairFinish`: a nil clone pair is
terminal success; fault copyStatus is an error; normal syncStatus is
terminal success; syncing/initializing/unsyncing keeps polling; anything
else is an error. -/
def clonePairCheck (clonePairID : String) (clonePair? : Option Obj) : ERes Bool :=
  match clonePair? with
  | none => .ok true
  | some clonePair =>
    let healthStatus := clonePair.getS "copyStatus"
    if healthStatus = clonePairHealthStatusFault then
      .error ("ClonePair " ++ clonePairID ++ " is at fault status")
    else
      let runningStatus := clonePair.getS "syncStatus"
      if runningStatus = clonePairRunningStatusNormal then .ok true
      else if runningStatus = clonePairRunningStatusSyncing ∨
          runningStatus = clonePairRunningStatusInitializing ∨
          runningStatus = clonePairRunningStatusUnsyncing then .ok false
      else .error ("ClonePair " ++ clonePairID ++ " running status is abnormal")

/-- Predicate body of `SAN.waitHyperMetroSyncFinish`: a nil pair is an
ERROR (not terminal success); fault health is an error; toSync/syncing
keeps polling; unknown/pause/error/invalid is an error; anything else is
terminal success. -/
def hyperMetroCheck (pairID : String) (pair? : Option Obj) : ERes Bool :=
  match pair? with
  | none => .error ("Something wrong with hypermetro pair " ++ pairID)
  | some pair =>
    let healthStatus := pair.getS "HEALTHSTATUS"
    if healthStatus = hyperMetroPairHealthStatusFault then
      .error ("Hypermetro pair " ++ pairID ++ " is fault")
    else
      let runningStatus := pair.getS "RUNNINGSTATUS"
      if runningStatus = hyperMetroPairRunningStatusToSync ∨
          runningStatus = hyperMetroPairRunningStatusSyncing then .ok false
      else if runningStatus = hyperMetroPairRunningStatusUnknown ∨
          runningStatus = hyperMetroPairRunningStatusPause ∨
          runningStatus = hyperMetroPairRunningStatusError ∨
          runningStatus = hyperMetroPairRunningStatusInvalid then
        .error ("Hypermetro pair " ++ pairID ++ " is at running status " ++ runningStatus)
      else .ok true

/-- Predicate body of `SAN.waitSnapshotReady`: a nil snapshot is an ERROR
(not terminal success); active/inactive is terminal success; anything
else keeps polling. -/
def snapshotReadyCheck (snapshotName : String) (snapshot? : Option Obj) : ERes Bool :=
  match snapshot? with
  | none => .error ("Something wrong with snapshot " ++ snapshotName)
  | some snapshot =>
    let runningStatus := snapshot.getS "RUNNINGSTATUS"
    if runningStatus = snapshotRunningStatusActive ∨
        runningStatus = snapshotRunningStatusInactive then .ok true
    else .ok false

/-- `SAN.waitLunCopyFinish`. -/
def SAN.waitLunCopyFinish (san : SAN) (lunCopyName : String) : M Unit :=
  waitUntil (do
    let lunCopy? ← san.cGetLunCopyByName .local lunCopyName
    TraceM.ofExcept (lunCopyCheck lunCopyName lunCopy?)) sixHourFuel

/-- `SAN.waitClonePairFinish`: on terminal success the clone pair is
deleted (the delete's error is ignored). -/
def SAN.waitClonePairFinish (san : SAN) (clonePairID : String) : M Unit := do
  waitUntil (do
    let clonePair? ← san.cGetClonePairInfo .local clonePairID
    TraceM.ofExcept (clonePairCheck clonePairID clonePair?)) sixHourFuel
  TraceM.ignoring (san.cDeleteClonePair .local clonePairID)

/-- `SAN.waitHyperMetroSyncFinish`: on any wait failure the pair is
stopped (the stop's error is ignored) and the failure is returned. -/
def SAN.waitHyperMetroSyncFinish (san : SAN) (pairID : String) : M Unit :=
  TraceM.onError
    (waitUntil (do
      let pair? ← san.cGetHyperMetroPair .local pairID
      TraceM.ofExcept (hyperMetroCheck pairID pair?)) sixHourFuel)
    (san.cStopHyperMetroPair .local pairID)

/-- `SAN.waitSnapshotReady`. -/
def SAN.waitSnapshotReady (san : SAN) (snapshotName : String) : M Unit :=
  waitUntil (do
    let snapshot? ← san.cGetLunSnapshotByName .local snapshotName
    TraceM.ofExcept (snapshotReadyCheck snapshotName snapshot?)) sixHourFuel

/-! ### `SAN` clone machinery -/

/-- `clonePairRequest`. -/
structure clonePairRequest where
  srcLunID : String
  dstLunID : String
  cloneLunCapacity : Int
  srcLunCapacity : Int
  cloneSpeed : Int
deriving DecidableEq, Repr

/-- `SAN.createClonePair`: create the pair, extend the destination FIRST
when the requested capacity exceeds the source capacity, then sync and
wait for the pair to finish. Create/extend/sync failures delete the pair. -/
def SAN.createClonePair (san : SAN) (req : clonePairRequest) : M Unit := do
  let clonePair ← san.cCreateClonePair .local req.srcLunID req.dstLunID req.cloneSpeed
  let clonePairID ← clonePair.strM "ID"
  if req.srcLunCapacity < req.cloneLunCapacity then
    TraceM.onError (san.cExtendLun .local req.dstLunID req.cloneLunCapacity)
      (san.cDeleteClonePair .local clonePairID)
  else TraceM.pure ()
  TraceM.onError (san.cSyncClonePair .local clonePairID)
    (san.cDeleteClonePair .local clonePairID)
  san.waitClonePairFinish clonePairID

/-- `SAN.clonePair` (DoradoV6 clone-from-LUN): the destination LUN, when
absent, is created at the SOURCE capacity. -/
def SAN.clonePair (san : SAN) (params : Params) : M Obj := do
  let cloneFrom ← params.str "clonefrom"
  let srcLun? ← san.cGetLunByName .local cloneFrom
  match srcLun? with
  | none => TraceM.fail ("Clone src LUN " ++ cloneFrom ++ " does not exist")
  | some srcLun => do
    let capStr ← srcLun.strM "CAPACITY"
    let srcLunCapacity ← parseIntM capStr
    let cloneLunCapacity ← params.int "capacity"
    if cloneLunCapacity < srcLunCapacity then
      TraceM.fail ("Clone LUN capacity must be >= src " ++ cloneFrom)
    else do
      let name ← params.str "name"
      let dstLun? ← san.cGetLunByName .local name
      let dstLun ← match dstLun? with
        | some d => TraceM.pure d
        | none => san.cCreateLun .local (params.set "capacity" (.n srcLunCapacity))
      let srcLunID ← srcLun.strM "ID"
      let dstLunID ← dstLun.strM "ID"
      let cloneSpeed ← params.int "clonespeed"
      TraceM.onError
        (san.createClonePair
          { srcLunID := srcLunID
            dstLunID := dstLunID
            cloneLunCapacity := cloneLunCapacity
            srcLunCapacity := srcLunCapacity
            cloneSpeed := cloneSpeed })
        (san.cDeleteLun .local dstLunID)
      TraceM.pure dstLun

/-- `SAN.fromSnapshotByClonePair` (DoradoV6 clone-from-snapshot). -/
def SAN.fromSnapshotByClonePair (san : SAN) (params : Params) : M Obj := do
  let srcSnapshotName ← params.str "fromSnapshot"
  let srcSnapshot? ← san.cGetLunSnapshotByName .local srcSnapshotName
  match srcSnapshot? with
  | none => TraceM.fail ("Clone snapshot " ++ srcSnapshotName ++ " does not exist")
  | some srcSnapshot => do
    let capStr ← srcSnapshot.strM "USERCAPACITY"
    let srcSnapshotCapacity ← parseIntM capStr
    let cloneLunCapacity ← params.int "capacity"
    if cloneLunCapacity < srcSnapshotCapacity then
      TraceM.fail ("Clone target LUN capacity must be >= src snapshot " ++ srcSnapshotName)
    else do
      let name ← params.str "name"
      let dstLun? ← san.cGetLunByName .local name
      let dstLun ← match dstLun? with
        | some d => TraceM.pure d
        | none => san.cCreateLun .local (params.set "capacity" (.n srcSnapshotCapacity))
      let srcSnapshotID ← srcSnapshot.strM "ID"
      let dstLunID ← dstLun.strM "ID"
      let cloneSpeed ← params.int "clonespeed"
      TraceM.onError
        (san.createClonePair
          { srcLunID := srcSnapshotID
            dstLunID := dstLunID
            cloneLunCapacity := cloneLunCapacity
            srcLunCapacity := srcSnapshotCapacity
            cloneSpeed := cloneSpeed })
        (san.cDeleteLun .local dstLunID)
      TraceM.pure dstLun

/-- `SAN.createLunCopy`: read-then-create of the named luncopy job, then
start it (deleting it when the start call fails). -/
def SAN.createLunCopy (san : SAN) (snapshotID dstLunID : String) (cloneSpeed : Int)
    (_isDeleteSnapshot : Bool) : M String := do
  let lunCopyName := "k8s_luncopy_" ++ snapshotID ++ "_to_" ++ dstLunID
  let lunCopy? ← san.cGetLunCopyByName .local lunCopyName
  let lunCopy ← match lunCopy? with
    | some lc => TraceM.pure lc
    | none => san.cCreateLunCopy .local lunCopyName snapshotID dstLunID cloneSpeed
  let lunCopyID ← lunCopy.strM "ID"
  TraceM.onError (san.cStartLunCopy .local lunCopyID)
    (san.cDeleteLunCopy .local lunCopyID)
  TraceM.pure lunCopyName

/-- `SAN.deleteLunCopy`: stop a running luncopy, delete it, and (when
asked) delete its source snapshot, ignoring lookup errors. -/
def SAN.deleteLunCopy (san : SAN) (lunCopyName : String) (isDeleteSnapshot : Bool) : M Unit := do
  let lunCopy? ← san.cGetLunCopyByName .local lunCopyName
  match lunCopy? with
  | none => TraceM.pure ()
  | some lunCopy => do
    let lunCopyID ← lunCopy.strM "ID"
    let runningStatus ← lunCopy.strM "RUNNINGSTATUS"
    if runningStatus = lunCopyRunningStatusQueuing ∨
        runningStatus = lunCopyRunningStatusCopying then
      TraceM.ignoring (san.cStopLunCopy .local lunCopyID)
    else TraceM.pure ()
    san.cDeleteLunCopy .local lunCopyID
    let snapshotName ← lunCopy.strM "SOURCELUNNAME"
    let snapRes ← TraceM.attempt (san.cGetLunSnapshotByName .local snapshotName)
    match snapRes with
    | some (some snapshot) =>
      if isDeleteSnapshot then do
        let snapshotID ← snapshot.strM "ID"
        TraceM.ignoring (san.cSmartDeleteLunSnapshot .local snapshotID)
      else TraceM.pure ()
    | _ => TraceM.pure ()

/-- `SAN.ensureLUNCopy`: create+start the luncopy (cleaning up snapshot
and destination LUN on failure) and wait for it to finish. -/
def SAN.ensureLUNCopy (san : SAN) (snapshotID dstLunID : String) (cloneSpeed : Int) : M String := do
  let lunCopyName ← TraceM.onError (san.createLunCopy snapshotID dstLunID cloneSpeed true)
    (do
      TraceM.ignoring (san.cSmartDeleteLunSnapshot .local snapshotID)
      TraceM.ignoring (san.cDeleteLun .local dstLunID))
  san.waitLunCopyFinish lunCopyName
  TraceM.pure lunCopyName

/-- `SAN.lunCopy` (older-family clone-from-LUN): synthesizes the
intermediate snapshot named k8s_lun_(srcID)_to_(dstID)_snap, runs the
luncopy and deletes both afterwards. The destination LUN, when absent,
is created at the REQUESTED capacity. -/
def SAN.lunCopy (san : SAN) (params : Params) : M Obj := do
  let clonefrom ← params.str "clonefrom"
  let srcLun? ← san.cGetLunByName .local clonefrom
  match srcLun? with
  | none => TraceM.fail ("Clone src LUN " ++ clonefrom ++ " does not exist")
  | some srcLun => do
    let capStr ← srcLun.strM "CAPACITY"
    let srcLunCapacity ← parseIntM capStr
    let cloneLunCapacity ← params.int "capacity"
    if cloneLunCapacity < srcLunCapacity then
      TraceM.fail ("Clone LUN capacity must be >= src " ++ clonefrom)
    else do
      let name ← params.str "name"
      let dstLun? ← san.cGetLunByName .local name
      let dstLun ← match dstLun? with
        | some d => TraceM.pure d
        | none => san.cCreateLun .local params
      let srcLunID ← srcLun.strM "ID"
      let dstLunID ← dstLun.strM "ID"
      let snapshotName := "k8s_lun_" ++ srcLunID ++ "_to_" ++ dstLunID ++ "_snap"
      let snapshot? ← san.cGetLunSnapshotByName .local snapshotName
      let snapshot ← match snapshot? with
        | some s => TraceM.pure s
        | none =>
          TraceM.onError (san.cSmartCreateLunSnapshot .local snapshotName srcLunID)
            (san.cDeleteLun .local dstLunID)
      let snapshotID ← snapshot.strM "ID"
      let cloneSpeed ← params.int "clonespeed"
      let lunCopyName ← san.ensureLUNCopy snapshotID dstLunID cloneSpeed
      san.deleteLunCopy lunCopyName true
      TraceM.pure dstLun

/-- `SAN.fromSnapshotByLunCopy` (older-family clone-from-snapshot). -/
def SAN.fromSnapshotByLunCopy (san : SAN) (params : Params) : M Obj := do
  let srcSnapshotName ← params.str "fromSnapshot"
  let srcSnapshot? ← san.cGetLunSnapshotByName .local srcSnapshotName
  match srcSnapshot? with
  | none => TraceM.fail ("Clone src snapshot " ++ srcSnapshotName ++ " does not exist")
  | some srcSnapshot => do
    let capStr ← srcSnapshot.strM "USERCAPACITY"
    let srcSnapshotCapacity ← parseIntM capStr
    let cap ← params.int "capacity"
    if cap < srcSnapshotCapacity then
      TraceM.fail ("Clone LUN capacity must be >= src snapshot" ++ srcSnapshotName)
    else do
      let name ← params.str "name"
      let dstLun? ← san.cGetLunByName .local name
      let dstLun ← match dstLun? with
        | some d => TraceM.pure d
        | none => san.cCreateLun .local params
      let dstLunID ← dstLun.strM "ID"
      let srcSnapshotID ← srcSnapshot.strM "ID"
      let cloneSpeed ← params.int "clonespeed"
      let lunCopyName ← TraceM.onError
        (san.createLunCopy srcSnapshotID dstLunID cloneSpeed false)
        (san.cDeleteLun .local dstLunID)
      san.waitLunCopyFinish lunCopyName
      san.deleteLunCopy lunCopyName false
      TraceM.pure dstLun

/-- `SAN.clone`: family dispatch. -/
def SAN.clone (san : SAN) (params _taskResult : Params) : M Obj :=
  if san.product = "DoradoV6" then san.clonePair params else san.lunCopy params

/-- `SAN.createFromSnapshot`: family dispatch. -/
def SAN.createFromSnapshot (san : SAN) (params _taskResult : Params) : M Obj :=
  if san.product = "DoradoV6" then san.fromSnapshotByClonePair params
  else san.fromSnapshotByLunCopy params

/-- `SAN.getLunCopyOfLunID`. -/
def SAN.getLunCopyOfLunID (san : SAN) (lunID : String) : M String := do
  let lun ← san.cGetLunByID .local lunID
  match lun.lookupKey "LUNCOPYIDS" with
  | none => TraceM.pure ""
  | some lunCopyIDStr =>
    if lunCopyIDStr = "" then TraceM.pure ""
    else
      match san.env.unmarshalStrList lunCopyIDStr with
      | [] => TraceM.pure ""
      | lunCopyID :: _ => do
        let lunCopy ← san.cGetLunCopyByID .local lunCopyID
        lunCopy.strM "NAME"

/-- `SAN.waitCloneFinish`: on DoradoV6 the clone-pair ID equals the
destination LUN ID; otherwise find the luncopy of the LUN. -/
def SAN.waitCloneFinish (san : SAN) (lun : Obj) (_taskResult : Params) : M Unit := do
  let lunID ← lun.strM "ID"
  if san.product = "DoradoV6" then san.waitClonePairFinish lunID
  else do
    let lunCopyName ← san.getLunCopyOfLunID lunID
    if lunCopyName.length > 0 then san.waitLunCopyFinish lunCopyName else TraceM.pure ()

/-! ### `SAN` create tasks and `Create` -/

/-- `SAN.createLocalLun` task: read-then-create (dispatching to the
clone paths when a source is set), or wait for a pending clone when the
LUN already exists. -/
def SAN.createLocalLun (san : SAN) (params res : Params) : M (Params × Params) := do
  let lunName ← params.str "name"
  let lun? ← san.cGetLunByName .local lunName
  match lun? with
  | none => do
    let poolID ← params.str "poolID"
    let params := params.set "parentid" (.s poolID)
    let lun ←
      if (params.lookup "clonefrom").isSome then san.clone params res
      else if (params.lookup "fromSnapshot").isSome then san.createFromSnapshot params res
      else san.cCreateLun .local params
    let lunID ← lun.strM "ID"
    let lunWWN ← lun.strM "WWN"
    TraceM.pure (params, [("localLunID", .s lunID), ("lunWWN", .s lunWWN)])
  | some lun => do
    san.waitCloneFinish lun res
    let lunID ← lun.strM "ID"
    let lunWWN ← lun.strM "WWN"
    TraceM.pure (params, [("localLunID", .s lunID), ("lunWWN", .s lunWWN)])

/-- `SAN.revertLocalLun`. -/
def SAN.revertLocalLun (san : SAN) (taskResult : Params) : M Unit :=
  match taskResult.lookupStr "localLunID" with
  | none => TraceM.pure ()
  | some lunID => if lunID = "" then TraceM.pure () else san.cDeleteLun .local lunID

/-- `SAN.createLocalQoS` task: only when a validated `qos` map is
present, and only when the LUN has no attached IO class yet. -/
def SAN.createLocalQoS (san : SAN) (params res : Params) : M (Params × Params) := do
  match params.lookupQos "qos" with
  | none => TraceM.pure (params, [])
  | some qos => do
    let lunID ← res.str "localLunID"
    let lun ← san.cGetLunByID .local lunID
    let qosID ← match lun.lookupKey "IOCLASSID" with
      | some q =>
        if q = "" then san.cSmartCreateQos .local lunID "lun" qos else TraceM.pure q
      | none => san.cSmartCreateQos .local lunID "lun" qos
    TraceM.pure (params, [("localQosID", .s qosID)])

/-- `SAN.revertLocalQoS`. -/
def SAN.revertLocalQoS (san : SAN) (taskResult : Params) : M Unit :=
  match taskResult.lookupStr "localLunID", taskResult.lookupStr "localQosID" with
  | some lunID, some qosID => san.cSmartDeleteQos .local qosID lunID "lun"
  | _, _ => TraceM.pure ()

/-- `SAN.createRemoteLun` task. -/
def SAN.createRemoteLun (san : SAN) (params res : Params) : M (Params × Params) := do
  let lunName ← params.str "name"
  let remoteCli ← res.cli "remoteCli"
  let lun? ← san.cGetLunByName remoteCli lunName
  match lun? with
  | some lun => do
    let lunID ← lun.strM "ID"
    TraceM.pure (params, [("remoteLunID", .s lunID)])
  | none => do
    let params ← Base.setWorkLoadID san remoteCli params
    let remotePoolID ← res.str "remotePoolID"
    let params := params.set "parentid" (.s remotePoolID)
    let lun ← san.cCreateLun remoteCli params
    let lunID ← lun.strM "ID"
    TraceM.pure (params, [("remoteLunID", .s lunID)])

/-- `SAN.revertRemoteLun`. -/
def SAN.revertRemoteLun (san : SAN) (taskResult : Params) : M Unit :=
  match taskResult.lookupStr "remoteLunID" with
  | none => TraceM.pure ()
  | some lunID => do
    let remoteCli ← taskResult.cli "remoteCli"
    san.cDeleteLun remoteCli lunID

/-- `SAN.createRemoteQoS` task. -/
def SAN.createRemoteQoS (san : SAN) (params res : Params) : M (Params × Params) := do
  match params.lookupQos "qos" with
  | none => TraceM.pure (params, [])
  | some qos => do
    let lunID ← res.str "remoteLunID"
    let remoteCli ← res.cli "remoteCli"
    let lun ← san.cGetLunByID remoteCli lunID
    let qosID ← match lun.lookupKey "IOCLASSID" with
      | some q =>
        if q = "" then san.cSmartCreateQos remoteCli lunID "lun" qos else TraceM.pure q
      | none => san.cSmartCreateQos remoteCli lunID "lun" qos
    TraceM.pure (params, [("remoteQosID", .s qosID)])

/-- `SAN.revertRemoteQoS`. -/
def SAN.revertRemoteQoS (san : SAN) (taskResult : Params) : M Unit :=
  match taskResult.lookupStr "remoteLunID", taskResult.lookupStr "remoteQosID" with
  | some lunID, some qosID => do
    let remoteCli ← taskResult.cli "remoteCli"
    san.cSmartDeleteQos remoteCli qosID lunID "lun"
  | _, _ => TraceM.pure ()

/-- `SAN.createHyperMetro` task: read-then-create of the pair (syncing
first when the volume is cloned), then wait for sync to finish. -/
def SAN.createHyperMetro (san : SAN) (params res : Params) : M (Params × Params) := do
  let domainID ← res.str "metroDomainID"
  let localLunID ← res.str "localLunID"
  let remoteLunID ← res.str "remoteLunID"
  let pair? ← san.cGetHyperMetroPairByLocalObjID .local localLunID
  let pairID ← match pair? with
    | none => do
      let needFirstSync := (params.lookup "clonefrom").isSome ||
        (params.lookup "fromSnapshot").isSome
      let data : HMPairData :=
        { domainID := domainID
          hcResourceType := 1
          isFirstSync := needFirstSync
          localObjID := localLunID
          remoteObjID := remoteLunID
          speed := 4 }
      let pair ← san.cCreateHyperMetroPair .local data
      let pairID ← pair.strM "ID"
      if needFirstSync then
        TraceM.onError (san.cSyncHyperMetroPair .local pairID)
          (san.cDeleteHyperMetroPair .local pairID true)
      else TraceM.pure ()
      TraceM.pure pairID
    | some pair => pair.strM "ID"
  TraceM.onError (san.waitHyperMetroSyncFinish pairID)
    (san.cDeleteHyperMetroPair .local pairID true)
  TraceM.pure (params, [("hyperMetroPairID", .s pairID)])

/-- `SAN.revertHyperMetro`: stop (error only logged) then delete. -/
def SAN.revertHyperMetro (san : SAN) (taskResult : Params) : M Unit :=
  match taskResult.lookupStr "hyperMetroPairID" with
  | none => TraceM.pure ()
  | some pairID => do
    TraceM.ignoring (san.cStopHyperMetroPair .local pairID)
    san.cDeleteHyperMetroPair .local pairID true

/-- `SAN.getHyperMetroParams` task: requires a metro domain name and a
non-nil metro remote client; the domain must exist and be normal. -/
def SAN.getHyperMetroParams (san : SAN) (params _res : Params) : M (Params × Params) := do
  match params.lookupStr "metrodomain" with
  | none => TraceM.fail "No hypermetro domain is specified for metro volume"
  | some metroDomain =>
    if metroDomain = "" then TraceM.fail "No hypermetro domain is specified for metro volume"
    else
      match san.metroRemoteCli with
      | none => TraceM.fail "remote client for hypermetro is nil"
      | some _ => do
        let remotePoolID ← Base.getRemotePoolID san params .metroRemote
        let domain? ← TraceM.attempt (san.cGetHyperMetroDomainByName .metroRemote metroDomain)
        match domain? with
        | some (some domain) => do
          let status ← domain.strM "RUNNINGSTATUS"
          if status ≠ hyperMetroDomainRunningStatusNormal then
            TraceM.fail ("Hypermetro domain " ++ metroDomain ++ " status is not normal")
          else do
            let domainID ← domain.strM "ID"
            TraceM.pure (params,
              [("remotePoolID", .s remotePoolID),
               ("remoteCli", .cliRef .metroRemote),
               ("metroDomainID", .s domainID)])
        | _ => TraceM.fail ("Cannot get hypermetro domain " ++ metroDomain ++ " ID")

/-- `SAN.getReplicationParams` task: requires a non-nil replication
remote client; resolves remote pool, remote system SN and the healthy
remote device, and sets `resType = 11` (LUN). -/
def SAN.getReplicationParams (san : SAN) (params _res : Params) : M (Params × Params) := do
  match san.replicaRemoteCli with
  | none => TraceM.fail "remote client for replication is nil"
  | some _ => do
    let remotePoolID ← Base.getRemotePoolID san params .replicaRemote
    let remoteSystem ← san.cGetSystem .replicaRemote
    let sn ← remoteSystem.strM "ID"
    let remoteDeviceID ← Base.getRemoteDeviceID san sn
    TraceM.pure (params,
      [("remotePoolID", .s remotePoolID),
       ("remoteCli", .cliRef .replicaRemote),
       ("remoteDeviceID", .s remoteDeviceID),
       ("resType", .n 11)])

/-- `SAN.preCreate`: common normalization, LUN-name mangling, source
selection (`sourcevolumename` over `sourcesnapshotname` over
`clonefrom`), and workload resolution. -/
def SAN.preCreate (san : SAN) (params0 : Params) : M Params := do
  let params ← Base.commonPreCreate san params0
  let name ← params.str "name"
  let params := params.set "name" (.s (san.env.getLunName name))
  let params ←
    match params.lookupStr "sourcevolumename" with
    | some v => TraceM.pure (params.set "clonefrom" (.s (san.env.getLunName v)))
    | none =>
      match params.lookupStr "sourcesnapshotname" with
      | some v => TraceM.pure (params.set "fromSnapshot" (.s (san.env.getSnapshotName v)))
      | none =>
        match params.lookupStr "clonefrom" with
        | some v => TraceM.pure (params.set "clonefrom" (.s (san.env.getLunName v)))
        | none => TraceM.pure params
  Base.setWorkLoadID san .local params

/-- `SAN.Create`: normalization, the replication/hypermetro mutual
exclusion check, then the assembled task flow (reverted on failure). -/
def SAN.Create (san : SAN) (params0 : Params) : M Volume := do
  let params ← san.preCreate params0
  let replication := (params.lookupBool "replication").getD false
  let hyperMetro := (params.lookupBool "hypermetro").getD false
  if replication ∧ hyperMetro then
    TraceM.fail "cannot create replication and hypermetro for a volume at the same time"
  else
    let preTasks : List FlowTask :=
      if replication then [⟨"Get-Replication-Params", san.getReplicationParams, none⟩]
      else if hyperMetro then [⟨"Get-HyperMetro-Params", san.getHyperMetroParams, none⟩]
      else []
    let mainTasks : List FlowTask :=
      [⟨"Create-Local-LUN", san.createLocalLun, some san.revertLocalLun⟩,
       ⟨"Create-Local-QoS", san.createLocalQoS, some san.revertLocalQoS⟩]
    let suffixTasks : List FlowTask :=
      if replication then
        [⟨"Create-Remote-LUN", san.createRemoteLun, some san.revertRemoteLun⟩,
         ⟨"Create-Remote-QoS", san.createRemoteQoS, some san.revertRemoteQoS⟩,
         ⟨"Create-Replication-Pair", Base.createReplicationPair san, none⟩]
      else if hyperMetro then
        [⟨"Create-Remote-LUN", san.createRemoteLun, some san.revertRemoteLun⟩,
         ⟨"Create-Remote-QoS", san.createRemoteQoS, some san.revertRemoteQoS⟩,
         ⟨"Create-HyperMetro", san.createHyperMetro, some san.revertHyperMetro⟩]
      else []
    do
      let (finalParams, res) ← runFlowWithRevert (preTasks ++ mainTasks ++ suffixTasks) params
      TraceM.pure (Base.prepareVolObj finalParams res)

/-! ### `SAN` delete tasks and `Delete` -/

/-- `SAN.deleteLun` (helper): read the LUN by name, detach+delete its
QoS if attached, then delete the LUN; absent is success. -/
def SAN.deleteLun (san : SAN) (name : String) (cid : ClientId) : M Unit := do
  let lun? ← san.cGetLunByName cid name
  match lun? with
  | none => TraceM.pure ()
  | some lun => do
    let lunID ← lun.strM "ID"
    match lun.lookupKey "IOCLASSID" with
    | some qosID =>
      if qosID ≠ "" then san.cSmartDeleteQos cid qosID lunID "lun" else TraceM.pure ()
    | none => TraceM.pure ()
    san.cDeleteLun cid lunID

/-- `SAN.deleteLocalLunCopy` task. -/
def SAN.deleteLocalLunCopy (san : SAN) (params _res : Params) : M (Params × Params) := do
  let lunID ← params.str "lunID"
  let lunCopyName ← san.getLunCopyOfLunID lunID
  if lunCopyName ≠ "" then san.deleteLunCopy lunCopyName true else TraceM.pure ()
  TraceM.pure (params, [])

/-- `SAN.deleteLocalHyperCopy` task: the clone-pair ID is assumed equal
to the LUN ID. -/
def SAN.deleteLocalHyperCopy (san : SAN) (params _res : Params) : M (Params × Params) := do
  let lunID ← params.str "lunID"
  let clonePair? ← san.cGetClonePairInfo .local lunID
  match clonePair? with
  | none => TraceM.pure (params, [])
  | some clonePair => do
    let clonePairID ← clonePair.strM "ID"
    san.cDeleteClonePair .local clonePairID
    TraceM.pure (params, [])

/-- `SAN.deleteLocalLun` task. -/
def SAN.deleteLocalLun (san : SAN) (params _res : Params) : M (Params × Params) := do
  let lunName ← params.str "lunName"
  san.deleteLun lunName .local
  TraceM.pure (params, [])

/-- `SAN.deleteHyperMetroRemoteLun` task: a nil metro remote client only
logs a warning and leaves the remote LUN as a leftover. -/
def SAN.deleteHyperMetroRemoteLun (san : SAN) (params _res : Params) : M (Params × Params) := do
  match san.metroRemoteCli with
  | none => TraceM.pure (params, [])
  | some _ => do
    let lunName ← params.str "lunName"
    san.deleteLun lunName .metroRemote
    TraceM.pure (params, [])

/-- `SAN.deleteHyperMetro` task: stop a running pair (error ignored)
then delete it. -/
def SAN.deleteHyperMetro (san : SAN) (params _res : Params) : M (Params × Params) := do
  let lunID ← params.str "lunID"
  let pair? ← san.cGetHyperMetroPairByLocalObjID .local lunID
  match pair? with
  | none => TraceM.pure (params, [])
  | some pair => do
    let pairID ← pair.strM "ID"
    let status ← pair.strM "RUNNINGSTATUS"
    if status = hyperMetroPairRunningStatusNormal ∨
        status = hyperMetroPairRunningStatusToSync ∨
        status = hyperMetroPairRunningStatusSyncing then
      TraceM.ignoring (san.cStopHyperMetroPair .local pairID)
    else TraceM.pure ()
    san.cDeleteHyperMetroPair .local pairID true
    TraceM.pure (params, [])

/-- Loop body of `SAN.deleteReplicationPair`: split a running pair
(split error ignored) and delete it (delete error propagated). -/
def SAN.deleteReplicationPairsLoop (san : SAN) : List Obj → M Unit
  | [] => TraceM.pure ()
  | pair :: rest => do
    let pairID ← pair.strM "ID"
    let runningStatus ← pair.strM "RUNNINGSTATUS"
    if runningStatus = replicationPairRunningStatusNormal ∨
        runningStatus = replicationPairRunningStatusSync then
      TraceM.ignoring (san.cSplitReplicationPair .local pairID)
    else TraceM.pure ()
    san.cDeleteReplicationPair .local pairID
    san.deleteReplicationPairsLoop rest

/-- `SAN.deleteReplicationPair` task. -/
def SAN.deleteReplicationPair (san : SAN) (params _res : Params) : M (Params × Params) := do
  let lunID ← params.str "lunID"
  let pairs ← san.cGetReplicationPairByResID .local lunID 11
  if pairs.isEmpty then TraceM.pure (params, [])
  else do
    san.deleteReplicationPairsLoop pairs
    TraceM.pure (params, [])

/-- `SAN.deleteReplicationRemoteLun` task: a nil replication remote
client only logs a warning and leaves the remote LUN as a leftover. -/
def SAN.deleteReplicationRemoteLun (san : SAN) (params _res : Params) : M (Params × Params) := do
  match san.replicaRemoteCli with
  | none => TraceM.pure (params, [])
  | some _ => do
    let lunName ← params.str "lunName"
    san.deleteLun lunName .replicaRemote
    TraceM.pure (params, [])

/-- `SAN.Delete`: read the LUN; absent is success; otherwise classify
via the `HASRSSOBJECT` flags and run the delete flow (no revert). -/
def SAN.Delete (san : SAN) (name : String) : M Unit := do
  let lunName := san.env.getLunName name
  let lun? ← san.cGetLunByName .local lunName
  match lun? with
  | none => TraceM.pure ()
  | some lun => do
    let rssStr ← lun.strM "HASRSSOBJECT"
    let rss := san.env.unmarshalRss rssStr
    let tasks : List FlowTask :=
      (if Obj.lookupKey rss "HyperMetro" = some "TRUE" then
        [⟨"Delete-HyperMetro", san.deleteHyperMetro, none⟩,
         ⟨"Delete-HyperMetro-Remote-LUN", san.deleteHyperMetroRemoteLun, none⟩]
       else []) ++
      (if Obj.lookupKey rss "RemoteReplication" = some "TRUE" then
        [⟨"Delete-Replication-Pair", san.deleteReplicationPair, none⟩,
         ⟨"Delete-Replication-Remote-LUN", san.deleteReplicationRemoteLun, none⟩]
       else []) ++
      (if Obj.lookupKey rss "LunCopy" = some "TRUE" then
        [⟨"Delete-Local-LunCopy", san.deleteLocalLunCopy, none⟩]
       else []) ++
      (if Obj.lookupKey rss "HyperCopy" = some "TRUE" then
        [⟨"Delete-Local-HyperCopy", san.deleteLocalHyperCopy, none⟩]
       else []) ++
      [⟨"Delete-Local-LUN", san.deleteLocalLun, none⟩]
    let lunID ← lun.strM "ID"
    let params : Params := [("lun", .obj lun), ("lunID", .s lunID), ("lunName", .s lunName)]
    let _ ← runFlowNoRevert tasks params
    TraceM.pure ()

/-! ### `SAN` expand tasks and `Expand` -/

/-- `SAN.preExpandCheckRemoteCapacity` (helper). -/
def SAN.preExpandCheckRemoteCapacity (san : SAN) (params : Params) (cid : ClientId) : M String := do
  let name ← params.str "name"
  let remoteLunName := san.env.getLunName name
  let remoteLun? ← san.cGetLunByName cid remoteLunName
  match remoteLun? with
  | none => TraceM.fail ("remote lun " ++ remoteLunName ++ " to extend does not exist")
  | some remoteLun => do
    let newSize ← params.int "size"
    let capStr ← remoteLun.strM "CAPACITY"
    let curSize ← parseIntM capStr
    if newSize < curSize then
      TraceM.fail ("Remote Lun " ++ remoteLunName ++ " newSize " ++ toString newSize ++
        " must be greater than curSize " ++ toString curSize)
    else remoteLun.strM "ID"

/-- `SAN.preExpandHyperMetroCheckRemoteCapacity` task. -/
def SAN.preExpandHyperMetroCheckRemoteCapacity (san : SAN)
    (params _res : Params) : M (Params × Params) := do
  let remoteLunID ← san.preExpandCheckRemoteCapacity params .metroRemote
  TraceM.pure (params, [("remoteLunID", .s remoteLunID)])

/-- `SAN.preExpandReplicationCheckRemoteCapacity` task. -/
def SAN.preExpandReplicationCheckRemoteCapacity (san : SAN)
    (params _res : Params) : M (Params × Params) := do
  let remoteLunID ← san.preExpandCheckRemoteCapacity params .replicaRemote
  TraceM.pure (params, [("remoteLunID", .s remoteLunID)])

/-- `SAN.suspendHyperMetro` task: stop a running pair (stop errors
propagated here). -/
def SAN.suspendHyperMetro (san : SAN) (params _res : Params) : M (Params × Params) := do
  let lunID ← params.str "lunID"
  let pair? ← san.cGetHyperMetroPairByLocalObjID .local lunID
  match pair? with
  | none => TraceM.pure (params, [])
  | some pair => do
    let pairID ← pair.strM "ID"
    let status ← pair.strM "RUNNINGSTATUS"
    if status = hyperMetroPairRunningStatusNormal ∨
        status = hyperMetroPairRunningStatusToSync ∨
        status = hyperMetroPairRunningStatusSyncing then
      san.cStopHyperMetroPair .local pairID
    else TraceM.pure ()
    TraceM.pure (params, [("hyperMetroPairID", .s pairID)])

/-- `SAN.expandHyperMetroRemoteLun` task. -/
def SAN.expandHyperMetroRemoteLun (san : SAN) (params res : Params) : M (Params × Params) := do
  let remoteLunID ← res.str "remoteLunID"
  let newSize ← params.int "size"
  san.cExtendLun .metroRemote remoteLunID newSize
  TraceM.pure (params, [])

/-- `SAN.syncHyperMetro` task. -/
def SAN.syncHyperMetro (san : SAN) (params res : Params) : M (Params × Params) := do
  let pairID ← res.str "hyperMetroPairID"
  if pairID = "" then TraceM.pure (params, [])
  else do
    san.cSyncHyperMetroPair .local pairID
    TraceM.pure (params, [])

/-- `SAN.expandLocalLun` task. -/
def SAN.expandLocalLun (san : SAN) (params _res : Params) : M (Params × Params) := do
  let lunID ← params.str "lunID"
  let newSize ← params.int "size"
  san.cExtendLun .local lunID newSize
  TraceM.pure (params, [])

/-- Loop body of `SAN.splitReplication` (split errors propagated);
returns the IDs of the pairs actually split, in order. -/
def SAN.splitReplicationLoop (san : SAN) : List Obj → List String → M (List String)
  | [], acc => TraceM.pure acc.reverse
  | pair :: rest, acc => do
    let pairID ← pair.strM "ID"
    let runningStatus ← pair.strM "RUNNINGSTATUS"
    if runningStatus ≠ replicationPairRunningStatusNormal ∧
        runningStatus ≠ replicationPairRunningStatusSync then
      san.splitReplicationLoop rest acc
    else do
      san.cSplitReplicationPair .local pairID
      san.splitReplicationLoop rest (pairID :: acc)

/-- `SAN.splitReplication` task. -/
def SAN.splitReplication (san : SAN) (params _res : Params) : M (Params × Params) := do
  let lunID ← params.str "lunID"
  let pairs ← san.cGetReplicationPairByResID .local lunID 11
  if pairs.isEmpty then TraceM.pure (params, [])
  else do
    let replicationPairIDs ← san.splitReplicationLoop pairs []
    TraceM.pure (params, [("replicationPairIDs", .strs replicationPairIDs)])

/-- `SAN.expandReplicationRemoteLun` task. -/
def SAN.expandReplicationRemoteLun (san : SAN) (params res : Params) : M (Params × Params) := do
  let remoteLunID ← res.str "remoteLunID"
  let newSize ← params.int "size"
  san.cExtendLun .replicaRemote remoteLunID newSize
  TraceM.pure (params, [])

/-- Loop body of `SAN.syncReplication`. -/
def SAN.syncReplicationLoop (san : SAN) : List String → M Unit
  | [] => TraceM.pure ()
  | pairID :: rest => do
    san.cSyncReplicationPair .local pairID
    san.syncReplicationLoop rest

/-- `SAN.syncReplication` task. -/
def SAN.syncReplication (san : SAN) (params res : Params) : M (Params × Params) := do
  let replicationPairIDs ← res.strList "replicationPairIDs"
  san.syncReplicationLoop replicationPairIDs
  TraceM.pure (params, [])

/-- `SAN.Expand`: pre-flight fetch and size check, then the mirrored
expand flow. In Go the function returns the pair `(isAttached, err)`;
here a flow error is returned as the error, subsuming the pair. -/
def SAN.Expand (san : SAN) (name : String) (newSize : Int) : M Bool := do
  let lunName := san.env.getLunName name
  let lun? ← san.cGetLunByName .local lunName
  match lun? with
  | none => TraceM.fail ("Lun " ++ lunName ++ " to expand does not exist")
  | some lun => do
    let isAttached := lun.lookupKey "EXPOSEDTOINITIATOR" = some "true"
    let capStr ← lun.strM "CAPACITY"
    let curSize := (goAtoi capStr).getD 0
    if newSize ≤ curSize then
      TraceM.fail ("Lun " ++ lunName ++ " newSize " ++ toString newSize ++
        " must be greater than curSize " ++ toString curSize)
    else do
      let rssStr ← lun.strM "HASRSSOBJECT"
      let rss := san.env.unmarshalRss rssStr
      let hm := Obj.lookupKey rss "HyperMetro" = some "TRUE"
      let rep := Obj.lookupKey rss "RemoteReplication" = some "TRUE"
      let tasks : List FlowTask :=
        [⟨"Expand-PreCheck-Capacity", Base.preExpandCheckCapacity san, none⟩] ++
        (if hm then
          [⟨"Expand-HyperMetro-Remote-PreCheck-Capacity",
            san.preExpandHyperMetroCheckRemoteCapacity, none⟩,
           ⟨"Suspend-HyperMetro", san.suspendHyperMetro, none⟩,
           ⟨"Expand-HyperMetro-Remote-LUN", san.expandHyperMetroRemoteLun, none⟩]
         else []) ++
        (if rep then
          [⟨"Expand-Replication-Remote-PreCheck-Capacity",
            san.preExpandReplicationCheckRemoteCapacity, none⟩,
           ⟨"Split-Replication", san.splitReplication, none⟩,
           ⟨"Expand-Replication-Remote-LUN", san.expandReplicationRemoteLun, none⟩]
         else []) ++
        [⟨"Expand-Local-Lun", san.expandLocalLun, none⟩] ++
        (if hm then [⟨"Sync-HyperMetro", san.syncHyperMetro, none⟩] else []) ++
        (if rep then [⟨"Sync-Replication", san.syncReplication, none⟩] else [])
      let lunID ← lun.strM "ID"
      let localParentName ← lun.strM "PARENTNAME"
      let params : Params :=
        [("name", .s name), ("size", .n newSize), ("expandSize", .n (newSize - curSize)),
         ("lunID", .s lunID), ("localParentName", .s localParentName)]
      let _ ← runFlowNoRevert tasks params
      TraceM.pure isAttached

/-! ### `SAN` snapshot operations -/

/-- `SAN.createSnapshot` task: create the snapshot and wait until it is
ready. -/
def SAN.createSnapshot (san : SAN) (params _res : Params) : M (Params × Params) := do
  let lunID ← params.str "lunID"
  let snapshotName ← params.str "snapshotName"
  let snapshot ← san.cCreateLunSnapshot .local snapshotName lunID
  san.waitSnapshotReady snapshotName
  let snapshotID ← snapshot.strM "ID"
  let snapshotSize ← snapshot.strM "USERCAPACITY"
  TraceM.pure (params, [("snapshotId", .s snapshotID), ("snapshotSize", .s snapshotSize)])

/-- `SAN.revertSnapshot`. -/
def SAN.revertSnapshot (san : SAN) (taskResult : Params) : M Unit := do
  let snapshotID ← taskResult.str "snapshotId"
  san.cDeleteLunSnapshot .local snapshotID

/-- `SAN.activateSnapshot` task. -/
def SAN.activateSnapshot (san : SAN) (params res : Params) : M (Params × Params) := do
  let snapshotID ← res.str "snapshotId"
  san.cActivateLunSnapshot .local snapshotID
  TraceM.pure (params, [])

/-- `SAN.deactivateSnapshot` task. -/
def SAN.deactivateSnapshot (san : SAN) (params _res : Params) : M (Params × Params) := do
  let snapshotID ← params.str "snapshotId"
  san.cDeactivateLunSnapshot .local snapshotID
  TraceM.pure (params, [])

/-- `SAN.deleteSnapshot` task. -/
def SAN.deleteSnapshot (san : SAN) (params _res : Params) : M (Params × Params) := do
  let snapshotID ← params.str "snapshotId"
  san.cDeleteLunSnapshot .local snapshotID
  TraceM.pure (params, [])

/-- `SAN.CreateSnapshot`: an existing snapshot with the same parent is
returned as-is; a different parent is a name conflict; otherwise create
and activate the snapshot, re-fetch it and return its attributes. -/
def SAN.CreateSnapshot (san : SAN) (lunName snapshotName : String) : M SnapshotInfo := do
  let lun? ← san.cGetLunByName .local lunName
  match lun? with
  | none => TraceM.fail ("Lun " ++ lunName ++ " to create snapshot does not exist")
  | some lun => do
    let lunId ← lun.strM "ID"
    let snapshot? ← san.cGetLunSnapshotByName .local snapshotName
    match snapshot? with
    | some snapshot => do
      let snapshotParentId ← snapshot.strM "PARENTID"
      if snapshotParentId ≠ lunId then
        TraceM.fail ("Snapshot " ++ snapshotName ++ " is already exist, but the parent LUN " ++
          lunName ++ " is incompatible")
      else do
        let ucap ← snapshot.strM "USERCAPACITY"
        let snapshotSize := (goAtoi ucap).getD 0
        TraceM.pure (Base.getSnapshotReturnInfo snapshot snapshotSize)
    | none => do
      let params : Params := [("lunID", .s lunId), ("snapshotName", .s snapshotName)]
      let tasks : List FlowTask :=
        [⟨"Create-Snapshot", san.createSnapshot, some san.revertSnapshot⟩,
         ⟨"Active-Snapshot", san.activateSnapshot, none⟩]
      let (_, result) ← runFlowWithRevert tasks params
      let snapshot2? ← san.cGetLunSnapshotByName .local snapshotName
      match snapshot2? with
      | none => TraceM.fail "panic: snapshot re-fetch returned nil"
      | some snapshot2 => do
        let sizeStr ← result.str "snapshotSize"
        let snapshotSize := (goAtoi sizeStr).getD 0
        TraceM.pure (Base.getSnapshotReturnInfo snapshot2 snapshotSize)

/-- `SAN.DeleteSnapshot`: absent is success; otherwise deactivate then
delete. -/
def SAN.DeleteSnapshot (san : SAN) (snapshotName : String) : M Unit := do
  let snapshot? ← san.cGetLunSnapshotByName .local snapshotName
  match snapshot? with
  | none => TraceM.pure ()
  | some snapshot => do
    let snapshotID ← snapshot.strM "ID"
    let params : Params := [("snapshotId", .s snapshotID)]
    let tasks : List FlowTask :=
      [⟨"Deactivate-Snapshot", san.deactivateSnapshot, none⟩,
       ⟨"Delete-Snapshot", san.deleteSnapshot, none⟩]
    let _ ← runFlowNoRevert tasks params
    TraceM.pure ()

/-! ### NFS node mount helper (`connector/nfs/nfs_helper.go`)

Shell commands issued by the helper are recorded in a trace of
`HostCmd`; the host OS (file existence, `/proc/mounts` content, command
outcomes) is an oracle. -/

/-- One shell command run by the helper. -/
inductive HostCmd where
  | mount (sourcePath targetPath : String) (flags : Option String)
  | umount (targetPath : String)
  | blkid (sourcePath : String)
  | mkfs (fsType sourcePath : String)
  | resize (targetPath : String)
deriving DecidableEq, Repr

/-- The node-host monad: shell commands are recorded in the trace. -/
abbrev HM := TraceM HostCmd

/-- The host-OS oracle: path existence, the raw `/proc/mounts` content,
and each shell command's `(output, failed)` outcome. `resizeOk` stands
for the external `connector.ResizeMountPath` (not under `src/`). -/
structure Host where
  sourcePathExists : String → Bool
  targetPathExists : String → Bool
  mkdirOk : String → Bool
  procMounts : ERes String
  execMount : String → String → Option String → String × Bool
  execUmount : String → String × Bool
  execBlkid : String → String × Bool
  execMkfs : String → String → String × Bool
  resizeOk : String → Bool

/-- The parsed connection info (`connectorInfo`). -/
structure connectorInfo where
  srcType : String
  sourcePath : String
  targetPath : String
  fsType : String
  mntFlags : String
deriving DecidableEq, Repr

/-- `parseNFSInfo`: `srcType`, `sourcePath`, `targetPath` are required
non-empty; `fsType` defaults to ext4; `mountFlags` is optional. -/
def parseNFSInfo (props : List (String × String)) : ERes connectorInfo :=
  let get := fun k => (Obj.lookupKey props k).getD ""
  if get "srcType" = "" then .error "there are no srcType in the connection info"
  else if get "sourcePath" = "" then .error "there are no source path in the connection info"
  else if get "targetPath" = "" then .error "there are no target path in the connection info"
  else
    .ok { srcType := get "srcType"
          sourcePath := get "sourcePath"
          targetPath := get "targetPath"
          fsType := if get "fsType" = "" then "ext4" else get "fsType"
          mntFlags := get "mountFlags" }

/-- `preMount`: the source path must exist; the target path is created
if missing. No shell command is issued. -/
def preMount (host : Host) (sourcePath targetPath : String) : HM Unit :=
  if !host.sourcePathExists sourcePath then TraceM.fail "source path does not exist"
  else if !host.targetPathExists targetPath then
    if !host.mkdirOk targetPath then TraceM.fail "can not create a target path"
    else TraceM.pure ()
  else TraceM.pure ()

/-- One line of `readMountPoints`: split on single spaces; lines with at
least two fields whose first field is not a literal "#" map the target
(field 2) to the source (field 1). -/
def mountPointsLine (acc : List (String × String)) (line : String) : List (String × String) :=
  if goTrim line ≠ "" then
    match goSplit line ' ' with
    | src :: tgt :: _ => if src ≠ "#" then (tgt, src) :: acc else acc
    | _ => acc
  else acc

/-- `readMountPoints` applied to raw `/proc/mounts` content: builds the
target-to-source table, later lines overriding earlier ones. -/
def readMountPoints (data : String) : List (String × String) :=
  (goSplit data '\n').foldl mountPointsLine []

/-- The `mount` invocation at the end of `mountUnix`: flags, when
non-empty, are appended as `-o flags`. -/
def mountExec (host : Host) (sourcePath targetPath flags : String) : HM Unit := do
  let flagsOpt := if flags ≠ "" then some flags else none
  TraceM.record (HostCmd.mount sourcePath targetPath flagsOpt)
  let (output, failed) := host.execMount sourcePath targetPath flagsOpt
  if failed then TraceM.fail ("Mount " ++ sourcePath ++ " to " ++ targetPath ++ " error: " ++ output)
  else TraceM.pure ()

/-- `mountUnix`: pre-mount checks, then the mount-table conflict check
(a read error of `/proc/mounts` is ignored, leaving the table empty),
then the actual `mount` invocation. -/
def mountUnix (host : Host) (sourcePath targetPath flags : String) : HM Unit := do
  preMount host sourcePath targetPath
  let mountMap :=
    match host.procMounts with
    | .error _ => []
    | .ok data => readMountPoints data
  match Obj.lookupKey mountMap targetPath with
  | some value =>
    if value ≠ sourcePath then
      TraceM.fail ("The mount " ++ targetPath ++ " is already exist, but the source path is not "
        ++ sourcePath)
    else mountExec host sourcePath targetPath flags
  | none => mountExec host sourcePath targetPath flags

/-- `mountFS`. -/
def mountFS (host : Host) (sourcePath targetPath flags : String) : HM Unit :=
  mountUnix host sourcePath targetPath flags

/-- `isDevFormat`: `blkid` output empty means unformatted. -/
def isDevFormat (host : Host) (sourcePath : String) : HM Bool := do
  TraceM.record (HostCmd.blkid sourcePath)
  let (output, failed) := host.execBlkid sourcePath
  if failed then TraceM.fail ("Query fs of " ++ sourcePath ++ " error: " ++ output)
  else TraceM.pure (output ≠ "")

/-- `formatDisk`. -/
def formatDisk (host : Host) (sourcePath fsType : String) : HM Unit := do
  TraceM.record (HostCmd.mkfs fsType sourcePath)
  let (output, failed) := host.execMkfs fsType sourcePath
  if failed then TraceM.fail ("Couldn't mkfs " ++ sourcePath ++ " to " ++ fsType ++ ": " ++ output)
  else TraceM.pure ()

/-- `mountDisk`: mkfs-if-unformatted then mount; an already formatted
device is mounted and then resized to the (possibly expanded) device. -/
def mountDisk (host : Host) (sourcePath targetPath fsType flags : String) : HM Unit := do
  let formatted ← isDevFormat host sourcePath
  if !formatted then do
    formatDisk host sourcePath fsType
    mountUnix host sourcePath targetPath flags
  else do
    mountUnix host sourcePath targetPath flags
    TraceM.record (HostCmd.resize targetPath)
    if host.resizeOk targetPath then TraceM.pure ()
    else TraceM.fail ("Resize mount path " ++ targetPath ++ " err")

/-- `tryConnectVolume`: parse the connection info and dispatch on the
source type. -/
def tryConnectVolume (host : Host) (props : List (String × String)) : HM Unit := do
  let conn ← TraceM.ofExcept (parseNFSInfo props)
  if conn.srcType = "block" then
    mountDisk host conn.sourcePath conn.targetPath conn.fsType conn.mntFlags
  else if conn.srcType = "fs" then
    mountFS host conn.sourcePath conn.targetPath conn.mntFlags
  else TraceM.fail "volume device not found"

/-- `unmountUnix`: a failed `umount` whose output contains
"not mounted" is success. -/
def unmountUnix (host : Host) (targetPath : String) : HM Unit := do
  TraceM.record (HostCmd.umount targetPath)
  let (output, failed) := host.execUmount targetPath
  if failed ∧ ¬ (substrOccurs output "not mounted" = true) then
    TraceM.fail ("Unmount " ++ targetPath ++ " error: " ++ output)
  else TraceM.pure ()

/-- `tryDisConnectVolume`. -/
def tryDisConnectVolume (host : Host) (targetPath : String) : HM Unit :=
  unmountUnix host targetPath

/-! ### `proto.VerifyIscsiPortals` (`src/unnamed/part_000`)

`net.ParseIP` is an external library function; it is abstracted as the
predicate `parseIP` deciding whether a string is a valid IP address. -/

/-- Loop of `VerifyIscsiPortals`: stops at the first invalid portal. -/
def verifyIscsiPortalsLoop (parseIP : String → Bool) :
    List String → List String → ERes (List String)
  | [], acc => .ok acc.reverse
  | portal :: rest, acc =>
    if parseIP portal then verifyIscsiPortalsLoop parseIP rest (portal :: acc)
    else .error (portal ++ " of portals is invalid")

/-- `proto.VerifyIscsiPortals`: at least one portal; every portal must
parse as an IP; the verified portals are returned in order. -/
def VerifyIscsiPortals (parseIP : String → Bool) (portals : List String) : ERes (List String) :=
  if portals.length < 1 then .error "At least 1 portal must be provided for iscsi backend"
  else verifyIscsiPortalsLoop parseIP portals []

/-! ### Concrete oracles used by witnesses and counterexamples -/

/-- A client oracle whose every method fails; scenario oracles override
individual methods. -/
def errClient : Client where
  getPoolByName := fun _ _ => .error "unexpected call"
  getLunByName := fun _ _ => .error "unexpected call"
  getLunByID := fun _ _ => .error "unexpected call"
  createLun := fun _ _ => .error "unexpected call"
  deleteLun := fun _ _ => .error "unexpected call"
  extendLun := fun _ _ _ => .error "unexpected call"
  getLunSnapshotByName := fun _ _ => .error "unexpected call"
  createLunSnapshot := fun _ _ _ => .error "unexpected call"
  activateLunSnapshot := fun _ _ => .error "unexpected call"
  deactivateLunSnapshot := fun _ _ => .error "unexpected call"
  deleteLunSnapshot := fun _ _ => .error "unexpected call"
  createClonePair := fun _ _ _ _ => .error "unexpected call"
  syncClonePair := fun _ _ => .error "unexpected call"
  deleteClonePair := fun _ _ => .error "unexpected call"
  getClonePairInfo := fun _ _ => .error "unexpected call"
  createLunCopy := fun _ _ _ _ _ => .error "unexpected call"
  startLunCopy := fun _ _ => .error "unexpected call"
  stopLunCopy := fun _ _ => .error "unexpected call"
  getLunCopyByName := fun _ _ => .error "unexpected call"
  getLunCopyByID := fun _ _ => .error "unexpected call"
  deleteLunCopy := fun _ _ => .error "unexpected call"
  createHyperMetroPair := fun _ _ => .error "unexpected call"
  syncHyperMetroPair := fun _ _ => .error "unexpected call"
  stopHyperMetroPair := fun _ _ => .error "unexpected call"
  deleteHyperMetroPair := fun _ _ _ => .error "unexpected call"
  getHyperMetroPair := fun _ _ => .error "unexpected call"
  getHyperMetroPairByLocalObjID := fun _ _ => .error "unexpected call"
  getHyperMetroDomainByName := fun _ _ => .error "unexpected call"
  createReplicationPair := fun _ _ => .error "unexpected call"
  syncReplicationPair := fun _ _ => .error "unexpected call"
  splitReplicationPair := fun _ _ => .error "unexpected call"
  deleteReplicationPair := fun _ _ => .error "unexpected call"
  getReplicationPairByResID := fun _ _ _ => .error "unexpected call"
  getRemoteDeviceBySN := fun _ _ => .error "unexpected call"
  getSystem := fun _ => .error "unexpected call"
  getApplicationTypeByName := fun _ _ => .error "unexpected call"
  smartCreateQos := fun _ _ _ _ => .error "unexpected call"
  smartDeleteQos := fun _ _ _ _ => .error "unexpected call"
  smartCreateLunSnapshot := fun _ _ _ => .error "unexpected call"
  smartDeleteLunSnapshot := fun _ _ => .error "unexpected call"

/-- An identity name-mangler environment for concrete scenarios. -/
def idEnv : Env where
  getLunName := fun s => s
  getSnapshotName := fun s => s
  extractQoS := fun _ _ => .error "no qos"
  validateQoS := fun _ q => .ok q
  unmarshalRss := fun _ => []
  unmarshalStrList := fun _ => []

/-! ### C7: clonespeed normalization -/

/-- Whether one of the three clone-source keys is present as a string. -/
def cloneSourcePresent (params : Params) : Bool :=
  (params.lookupStr "clonefrom").isSome || (params.lookupStr "sourcevolumename").isSome ||
    (params.lookupStr "sourcesnapshotname").isSome

/-- C7: during parameter normalization, clonespeed is only applied when
one of clonefrom / sourcevolumename / sourcesnapshotname is present (the
map is returned untouched otherwise); in that case a supplied non-empty
clonespeed string must parse to an integer in [1,4] — otherwise
normalization fails with an error — and an absent or empty clonespeed
defaults to 3. -/
theorem C7_clonespeed_normalization (params : Params) :
    (cloneSourcePresent params = false → Base.getCloneSpeed params = .ok params) ∧
    (cloneSourcePresent params = true →
      (∀ v : String, params.lookupStr "clonespeed" = some v → v ≠ "" →
        (∀ k : Int, goAtoi v = some k → 1 ≤ k → k ≤ 4 →
          Base.getCloneSpeed params = .ok (params.set "clonespeed" (.n k))) ∧
        (goAtoi v = none → ∃ e, Base.getCloneSpeed params = .error e) ∧
        (∀ k : Int, goAtoi v = some k → (k < 1 ∨ 4 < k) →
          ∃ e, Base.getCloneSpeed params = .error e)) ∧
      ((params.lookupStr "clonespeed" = none ∨ params.lookupStr "clonespeed" = some "") →
        Base.getCloneSpeed params = .ok (params.set "clonespeed" (.n 3)))) := by
  constructor
  · intro h
    unfold Base.getCloneSpeed
    simp only [cloneSourcePresent] at h
    simp [h]
  · intro h
    simp only [cloneSourcePresent] at h
    constructor
    · intro v hv hne
      refine ⟨?_, ?_, ?_⟩
      · intro k hk h1 h4
        unfold Base.getCloneSpeed
        simp only [h, hv, hne, hk]
        simp [hne, if_neg (by omega : ¬ (k < 1 ∨ 4 < k))]
      · intro hk
        unfold Base.getCloneSpeed
        simp [h, hv, hne, hk]
      · intro k hk hout
        unfold Base.getCloneSpeed
        simp [h, hv, hne, hk, if_pos hout]
    · intro hv
      unfold Base.getCloneSpeed
      rcases hv with hv | hv <;> simp [h, hv]

/-- Concrete params maps for the C7 witness. -/
def paramsC7a : Params := [("clonefrom", Value.s "s0"), ("clonespeed", Value.s "2")]

def paramsC7b : Params := [("clonefrom", Value.s "s0"), ("clonespeed", Value.s "7")]

def paramsC7c : Params := [("clonefrom", Value.s "s0")]

def paramsC7d : Params := [("capacity", Value.n 7)]

/-- Witness for C7 at concrete inputs: a params map with a clone source
and clonespeed "2" normalizes to 2; clonespeed "7" is rejected; an
absent clonespeed defaults to 3; without any clone source the map is
untouched. -/
theorem C7_clonespeed_normalization_witness :
    Base.getCloneSpeed paramsC7a = .ok (Params.set paramsC7a "clonespeed" (.n 2)) ∧
    (∃ e, Base.getCloneSpeed paramsC7b = .error e) ∧
    Base.getCloneSpeed paramsC7c = .ok (Params.set paramsC7c "clonespeed" (.n 3)) ∧
    Base.getCloneSpeed paramsC7d = .ok paramsC7d := by
  refine ⟨?_, ?_, ?_, ?_⟩
  · exact (((C7_clonespeed_normalization paramsC7a).2 (by decide)).1 "2" (by decide)
      (by decide)).1 2 (by decide) (by decide) (by decide)
  · exact (((C7_clonespeed_normalization paramsC7b).2 (by decide)).1 "7" (by decide)
      (by decide)).2.2 7 (by decide) (by decide)
  · exact ((C7_clonespeed_normalization paramsC7c).2 (by decide)).2 (Or.inl (by decide))
  · exact (C7_clonespeed_normalization paramsC7d).1 (by decide)

/-! ### C3: wait predicates on a nil object fetch -/

/-- C3 counterexample: the claim says every wait predicate (clone-pair,
luncopy, hypermetro-sync, snapshot-ready) treats a nil object fetch as
terminal success, but the hypermetro-sync and snapshot-ready predicates
return an ERROR on a nil fetch. -/
theorem C3_nil_fetch_counterexample :
    hyperMetroCheck "p1" none = .error "Something wrong with hypermetro pair p1" ∧
    snapshotReadyCheck "s1" none = .error "Something wrong with snapshot s1" :=
  ⟨rfl, rfl⟩

/-- C3 (amended): on a nil object fetch, the clone-pair and luncopy wait
predicates report terminal success (done with no error), while the
hypermetro-sync and snapshot-ready predicates report an error. -/
theorem C3_nil_fetch_amended (clonePairID lunCopyName pairID snapshotName : String) :
    clonePairCheck clonePairID none = .ok true ∧
    lunCopyCheck lunCopyName none = .ok true ∧
    (∃ e, hyperMetroCheck pairID none = .error e) ∧
    (∃ e, snapshotReadyCheck snapshotName none = .error e) :=
  ⟨rfl, rfl, ⟨_, rfl⟩, ⟨_, rfl⟩⟩

/-! ### C10: VerifyIscsiPortals -/

theorem verifyIscsiPortalsLoop_all_ok (parseIP : String → Bool) :
    ∀ (ps acc : List String), (∀ p ∈ ps, parseIP p = true) →
      verifyIscsiPortalsLoop parseIP ps acc = .ok (acc.reverse ++ ps) := by
  intro ps
  induction ps with
  | nil => intro acc _; simp [verifyIscsiPortalsLoop]
  | cons p rest ih =>
    intro acc h
    have hp : parseIP p = true := h p (by simp)
    have hrest : ∀ q ∈ rest, parseIP q = true := fun q hq => h q (by simp [hq])
    simp [verifyIscsiPortalsLoop, hp, ih (p :: acc) hrest]

theorem verifyIscsiPortalsLoop_bad (parseIP : String → Bool) :
    ∀ (ps acc : List String), (∃ p ∈ ps, parseIP p = false) →
      ∃ e, verifyIscsiPortalsLoop parseIP ps acc = .error e := by
  intro ps
  induction ps with
  | nil => intro acc h; simp at h
  | cons p rest ih =>
    intro acc h
    by_cases hp : parseIP p = true
    · rcases h with ⟨q, hq, hqf⟩
      rcases List.mem_cons.mp hq with rfl | hmem
      · rw [hp] at hqf; cases hqf
      · rcases ih (p :: acc) ⟨q, hmem, hqf⟩ with ⟨e, he⟩
        exact ⟨e, by simp [verifyIscsiPortalsLoop, hp, he]⟩
    · refine ⟨p ++ " of portals is invalid", ?_⟩
      simp only [verifyIscsiPortalsLoop]
      rw [if_neg hp]

/-- C10: VerifyIscsiPortals rejects the empty portal list; a non-empty
list with some element that does not parse as an IP is rejected; and a
non-empty list of valid portals is returned exactly, in order. -/
theorem C10_verifyIscsiPortals (parseIP : String → Bool) :
    (∃ e, VerifyIscsiPortals parseIP [] = .error e) ∧
    (∀ portals : List String, (∃ p ∈ portals, parseIP p = false) →
      ∃ e, VerifyIscsiPortals parseIP portals = .error e) ∧
    (∀ portals : List String, portals ≠ [] → (∀ p ∈ portals, parseIP p = true) →
      VerifyIscsiPortals parseIP portals = .ok portals) := by
  refine ⟨⟨_, rfl⟩, ?_, ?_⟩
  · intro portals h
    cases portals with
    | nil => simp at h
    | cons p rest =>
      rcases verifyIscsiPortalsLoop_bad parseIP (p :: rest) [] h with ⟨e, he⟩
      exact ⟨e, by simp [VerifyIscsiPortals, he]⟩
  · intro portals hne h
    cases portals with
    | nil => exact absurd rfl hne
    | cons p rest =>
      have := verifyIscsiPortalsLoop_all_ok parseIP (p :: rest) [] h
      simp [VerifyIscsiPortals, this]

/-- A sample IP-wellformedness predicate for the C10 witness. -/
def parseIPw (s : String) : Bool := s ≠ "bad"

/-- Witness for C10 at concrete inputs. -/
theorem C10_verifyIscsiPortals_witness :
    (∃ e, VerifyIscsiPortals parseIPw [] = .error e) ∧
    (∃ e, VerifyIscsiPortals parseIPw ["1.2.3.4", "bad"] = .error e) ∧
    VerifyIscsiPortals parseIPw ["1.2.3.4", "5.6.7.8"] = .ok ["1.2.3.4", "5.6.7.8"] := by
  obtain ⟨h1, h2, h3⟩ := C10_verifyIscsiPortals parseIPw
  exact ⟨h1, h2 ["1.2.3.4", "bad"] ⟨"bad", by decide, by decide⟩,
    h3 ["1.2.3.4", "5.6.7.8"] (by decide) (by decide)⟩

/-! ### C9: idempotent unmount -/

/-- C9: Detach of an already-unmounted target returns success — a
failed `umount` whose output contains "not mounted" yields no error —
while any other `umount` failure is returned as an error; a successful
`umount` succeeds. Exactly one `umount` command is invoked in each case. -/
theorem C9_unmount_idempotent (host : Host) (targetPath out : String) :
    (host.execUmount targetPath = (out, true) →
      (substrOccurs out "not mounted" = true →
        tryDisConnectVolume host targetPath [] = ([HostCmd.umount targetPath], .ok ())) ∧
      (substrOccurs out "not mounted" = false →
        tryDisConnectVolume host targetPath [] =
          ([HostCmd.umount targetPath], .error ("Unmount " ++ targetPath ++ " error: " ++ out)))) ∧
    (host.execUmount targetPath = (out, false) →
      tryDisConnectVolume host targetPath [] = ([HostCmd.umount targetPath], .ok ())) := by
  refine ⟨fun h => ⟨fun hs => ?_, fun hs => ?_⟩, fun h => ?_⟩
  · simp [tryDisConnectVolume, unmountUnix, Bind.bind, TraceM.bind, TraceM.record,
      TraceM.pure, TraceM.fail, h, hs]
  · simp [tryDisConnectVolume, unmountUnix, Bind.bind, TraceM.bind, TraceM.record,
      TraceM.pure, TraceM.fail, h, hs]
  · simp [tryDisConnectVolume, unmountUnix, Bind.bind, TraceM.bind, TraceM.record,
      TraceM.pure, TraceM.fail, h]

/-- Host oracle for the C9 witness: umount of /data fails with a
"not mounted" output; umount of /data2 fails otherwise. -/
def hostC9 : Host where
  sourcePathExists := fun _ => true
  targetPathExists := fun _ => true
  mkdirOk := fun _ => true
  procMounts := .ok ""
  execMount := fun _ _ _ => ("", false)
  execUmount := fun tgt =>
    if tgt = "/data" then ("umount: /data: not mounted", true)
    else if tgt = "/data2" then ("umount: /data2: target is busy", true)
    else ("", false)
  execBlkid := fun _ => ("", false)
  execMkfs := fun _ _ => ("", false)
  resizeOk := fun _ => true

/-- Witness for C9 at concrete inputs: all three branches. -/
theorem C9_unmount_idempotent_witness :
    tryDisConnectVolume hostC9 "/data" [] = ([HostCmd.umount "/data"], .ok ()) ∧
    tryDisConnectVolume hostC9 "/data2" [] =
      ([HostCmd.umount "/data2"],
       .error ("Unmount /data2 error: umount: /data2: target is busy")) ∧
    tryDisConnectVolume hostC9 "/data3" [] = ([HostCmd.umount "/data3"], .ok ()) := by
  refine ⟨?_, ?_, ?_⟩
  · exact ((C9_unmount_idempotent hostC9 "/data" "umount: /data: not mounted").1
      (by decide)).1 (by decide)
  · exact ((C9_unmount_idempotent hostC9 "/data2" "umount: /data2: target is busy").1
      (by decide)).2 (by decide)
  · exact (C9_unmount_idempotent hostC9 "/data3" "").2 (by decide)

/-! ### C8: mount conflict -/

/-- C8: when the target path already appears in the parsed /proc/mounts
table with a source different from the requested one, the mount fails
with the mount-conflict error and no shell command at all — in
particular no mount(8) — is invoked. -/
theorem C8_mount_conflict (host : Host) (src tgt flags data v : String)
    (hsrc : host.sourcePathExists src = true)
    (htgt : host.targetPathExists tgt = true ∨ host.mkdirOk tgt = true)
    (hpm : host.procMounts = .ok data)
    (hlook : Obj.lookupKey (readMountPoints data) tgt = some v)
    (hne : v ≠ src) :
    mountUnix host src tgt flags [] =
      ([], .error ("The mount " ++ tgt ++ " is already exist, but the source path is not "
        ++ src)) := by
  have hpre : preMount host src tgt [] = ([], .ok ()) := by
    by_cases h2 : host.targetPathExists tgt = true
    · simp [preMount, hsrc, h2, TraceM.pure]
    · rcases htgt with h | h
      · exact absurd h h2
      · simp [preMount, hsrc, h2, h, TraceM.pure]
  simp [mountUnix, Bind.bind, TraceM.bind, hpre, hpm, hlook, hne, TraceM.fail]

/-- Host oracle for the C8 witness (spec scenario 6): /proc/mounts
already contains "/dev/sdb /data ..." and /dev/sdc is attached to
/data. -/
def hostC8 : Host where
  sourcePathExists := fun _ => true
  targetPathExists := fun _ => true
  mkdirOk := fun _ => true
  procMounts := .ok "/dev/sda / ext4 rw 0 0\n/dev/sdb /data ext4 rw 0 0\n"
  execMount := fun _ _ _ => ("", false)
  execUmount := fun _ => ("", false)
  execBlkid := fun _ => ("", false)
  execMkfs := fun _ _ => ("", false)
  resizeOk := fun _ => true

/-- Witness for C8 at the spec's literal scenario 6. -/
theorem C8_mount_conflict_witness :
    mountUnix hostC8 "/dev/sdc" "/data" "" [] =
      ([], .error ("The mount /data is already exist, but the source path is not /dev/sdc")) :=
  C8_mount_conflict hostC8 "/dev/sdc" "/data" "" "/dev/sda / ext4 rw 0 0\n/dev/sdb /data ext4 rw 0 0\n"
    "/dev/sdb" (by decide) (Or.inl (by decide)) rfl (by decide) (by decide)

/-! ### C4: Expand pre-flight rejection -/

/-- C4: for every existing LUN and every newSize at most the LUN's
current capacity, Expand returns an error, and the only array
interaction is the initial read of the LUN — no mutation happens. -/
theorem C4_expand_preflight (san : SAN) (name : String) (newSize : Int) (lun : Obj) (cs : String)
    (hlun : ∀ t, san.cli.getLunByName t (san.env.getLunName name) = .ok (some lun))
    (hcap : lun.lookupKey "CAPACITY" = some cs)
    (hle : newSize ≤ (goAtoi cs).getD 0) :
    SAN.Expand san name newSize [] =
      ([(ClientId.local, CallKind.getLunByName (san.env.getLunName name))],
       .error ("Lun " ++ san.env.getLunName name ++ " newSize " ++ toString newSize ++
         " must be greater than curSize " ++ toString ((goAtoi cs).getD 0))) := by
  simp [SAN.Expand, SAN.cGetLunByName, SAN.call, SAN.clientOf, Bind.bind, TraceM.bind,
    TraceM.pure, TraceM.fail, hlun, Obj.strM, hcap, if_pos hle]

/-- Client and orchestrator for the C4 witness: LUN v1 exists with
capacity 100 sectors. -/
def cliC4 : Client :=
  { errClient with
    getLunByName := fun _ n =>
      if n = "v1" then .ok (some [("ID", "11"), ("CAPACITY", "100")]) else .ok none }

def sanC4 : SAN :=
  { cli := cliC4, metroRemoteCli := none, replicaRemoteCli := none,
    product := "DoradoV6", env := idEnv }

/-- Witness for C4: expanding v1 (capacity 100) to 100 fails after only
the LUN read. -/
theorem C4_expand_preflight_witness :
    (∀ t, sanC4.cli.getLunByName t "v1" = .ok (some [("ID", "11"), ("CAPACITY", "100")])) ∧
    SAN.Expand sanC4 "v1" 100 [] =
      ([(ClientId.local, CallKind.getLunByName "v1")],
       .error "Lun v1 newSize 100 must be greater than curSize 100") :=
  ⟨fun _ => rfl,
   C4_expand_preflight sanC4 "v1" 100 [("ID", "11"), ("CAPACITY", "100")] "100"
     (fun _ => rfl) (by decide) (by decide)⟩

/-! ### C5: idempotent Delete -/

/-- C5: deleting a volume whose LUN does not exist on the array returns
success with no array operation beyond the read, and two consecutive
Deletes of the same volume both succeed, each performing only the read
(no residue, no mutation). -/
theorem C5_delete_idempotent (san : SAN) (name : String)
    (h : ∀ t, san.cli.getLunByName t (san.env.getLunName name) = .ok none) :
    SAN.Delete san name [] =
      ([(ClientId.local, CallKind.getLunByName (san.env.getLunName name))], .ok ()) ∧
    (SAN.Delete san name >>= fun _ => SAN.Delete san name) [] =
      ([(ClientId.local, CallKind.getLunByName (san.env.getLunName name)),
        (ClientId.local, CallKind.getLunByName (san.env.getLunName name))], .ok ()) := by
  have h1 : ∀ t, SAN.Delete san name t =
      (t ++ [(ClientId.local, CallKind.getLunByName (san.env.getLunName name))], .ok ()) := by
    intro t
    simp [SAN.Delete, SAN.cGetLunByName, SAN.call, SAN.clientOf, Bind.bind, TraceM.bind,
      TraceM.pure, h]
  constructor
  · simpa using h1 []
  · show TraceM.bind (SAN.Delete san name) (fun _ => SAN.Delete san name) [] = _
    simp [TraceM.bind, h1]

/-- Client and orchestrator for the C5 witness: no LUN exists. -/
def cliC5 : Client := { errClient with getLunByName := fun _ _ => .ok none }

def sanC5 : SAN :=
  { cli := cliC5, metroRemoteCli := none, replicaRemoteCli := none,
    product := "DoradoV6", env := idEnv }

/-- Witness for C5: both a single Delete and two consecutive Deletes of
the absent volume v1 succeed, issuing only reads. -/
theorem C5_delete_idempotent_witness :
    (∀ t, sanC5.cli.getLunByName t "v1" = .ok none) ∧
    SAN.Delete sanC5 "v1" [] =
      ([(ClientId.local, CallKind.getLunByName "v1")], .ok ()) ∧
    (SAN.Delete sanC5 "v1" >>= fun _ => SAN.Delete sanC5 "v1") [] =
      ([(ClientId.local, CallKind.getLunByName "v1"),
        (ClientId.local, CallKind.getLunByName "v1")], .ok ()) :=
  ⟨fun _ => rfl, (C5_delete_idempotent sanC5 "v1" (fun _ => rfl)).1,
    (C5_delete_idempotent sanC5 "v1" (fun _ => rfl)).2⟩

/-! ### C6: CreateSnapshot -/

/-- Whether a snapshot-create call has already been issued in a trace
(used to phrase oracles whose array state evolves). -/
def hasCreatedSnapshot (t : Trace) : Bool :=
  t.any (fun c =>
    match c.2 with
    | CallKind.createLunSnapshot _ _ => true
    | _ => false)

/-- C6: CreateSnapshot returns the attributes of an existing snapshot
whose PARENTID equals the parent LUN's ID without creating anything;
fails when the snapshot exists under a different parent; and on the
create path returns the result shaped {CreationTime: epoch seconds
parsed from TIMESTAMP, SizeBytes: USERCAPACITY sectors × 512, ParentID}. -/
theorem C6_createSnapshot (san : SAN) (lunName snapshotName lid pid uc sid : String)
    (lun snap snap2 snapObj : Obj)
    (hlun : ∀ t, san.cli.getLunByName t lunName = .ok (some lun))
    (hid : lun.lookupKey "ID" = some lid) :
    ((∀ t, san.cli.getLunSnapshotByName t snapshotName = .ok (some snap)) →
      snap.lookupKey "PARENTID" = some lid →
      snap.lookupKey "USERCAPACITY" = some uc →
      SAN.CreateSnapshot san lunName snapshotName [] =
        ([(ClientId.local, CallKind.getLunByName lunName),
          (ClientId.local, CallKind.getLunSnapshotByName snapshotName)],
         .ok { CreationTime := (goAtoi (snap.getS "TIMESTAMP")).getD 0
               SizeBytes := ((goAtoi uc).getD 0) * 512
               ParentID := lid })) ∧
    ((∀ t, san.cli.getLunSnapshotByName t snapshotName = .ok (some snap)) →
      snap.lookupKey "PARENTID" = some pid →
      pid ≠ lid →
      SAN.CreateSnapshot san lunName snapshotName [] =
        ([(ClientId.local, CallKind.getLunByName lunName),
          (ClientId.local, CallKind.getLunSnapshotByName snapshotName)],
         .error ("Snapshot " ++ snapshotName ++ " is already exist, but the parent LUN " ++
           lunName ++ " is incompatible"))) ∧
    ((∀ t, hasCreatedSnapshot t = false →
        san.cli.getLunSnapshotByName t snapshotName = .ok none) →
      (∀ t, hasCreatedSnapshot t = true →
        san.cli.getLunSnapshotByName t snapshotName = .ok (some snap2)) →
      (∀ t, san.cli.createLunSnapshot t snapshotName lid = .ok snapObj) →
      snapObj.lookupKey "ID" = some sid →
      snapObj.lookupKey "USERCAPACITY" = some uc →
      snap2.lookupKey "RUNNINGSTATUS" = some snapshotRunningStatusActive →
      (∀ t, san.cli.activateLunSnapshot t sid = .ok ()) →
      SAN.CreateSnapshot san lunName snapshotName [] =
        ([(ClientId.local, CallKind.getLunByName lunName),
          (ClientId.local, CallKind.getLunSnapshotByName snapshotName),
          (ClientId.local, CallKind.createLunSnapshot snapshotName lid),
          (ClientId.local, CallKind.getLunSnapshotByName snapshotName),
          (ClientId.local, CallKind.activateLunSnapshot sid),
          (ClientId.local, CallKind.getLunSnapshotByName snapshotName)],
         .ok { CreationTime := (goAtoi (snap2.getS "TIMESTAMP")).getD 0
               SizeBytes := ((goAtoi uc).getD 0) * 512
               ParentID := snap2.getS "PARENTID" })) := by
  refine ⟨fun hsnap hpid huc => ?_, fun hsnap hpid hne => ?_,
    fun hsnapN hsnapS hcreate hsid hsuc hstat hact => ?_⟩
  · have hp : snap.getS "PARENTID" = lid := by simp [Obj.getS, hpid]
    simp [SAN.CreateSnapshot, SAN.cGetLunByName, SAN.cGetLunSnapshotByName, SAN.call,
      SAN.clientOf, Bind.bind, TraceM.bind, TraceM.pure, TraceM.fail, hlun, hsnap,
      Obj.strM, hid, hpid, huc, Base.getSnapshotReturnInfo, hp]
  · simp [SAN.CreateSnapshot, SAN.cGetLunByName, SAN.cGetLunSnapshotByName, SAN.call,
      SAN.clientOf, Bind.bind, TraceM.bind, TraceM.pure, TraceM.fail, hlun, hsnap,
      Obj.strM, hid, hpid, hne]
  · have hs2 : snap2.getS "RUNNINGSTATUS" = snapshotRunningStatusActive := by
      simp [Obj.getS, hstat]
    simp [SAN.CreateSnapshot, SAN.cGetLunByName, SAN.cGetLunSnapshotByName,
      SAN.cCreateLunSnapshot, SAN.cActivateLunSnapshot, SAN.call, SAN.clientOf,
      Bind.bind, TraceM.bind, TraceM.pure, TraceM.fail, TraceM.ofExcept, hlun,
      Obj.strM, hid, hsnapN, hsnapS, hcreate, hsid, hsuc, hact, hasCreatedSnapshot,
      runFlowWithRevert, runFlowAuxRevert, SAN.createSnapshot, SAN.activateSnapshot,
      SAN.waitSnapshotReady, sixHourFuel_succ, waitUntil_succ, snapshotReadyCheck, hs2,
      hstat, Params.str, Params.lookupStr, Params.lookup, Base.getSnapshotReturnInfo]

/-- Parent LUN shared by the C6 witness scenarios. -/
def lunC6 : Obj := [("ID", "7")]

/-- Existing snapshot with matching parent (scenario A). -/
def snapC6a : Obj := [("PARENTID", "7"), ("USERCAPACITY", "200"), ("TIMESTAMP", "1700000000")]

/-- Existing snapshot with a different parent (scenario B). -/
def snapC6b : Obj := [("PARENTID", "9"), ("USERCAPACITY", "200"), ("TIMESTAMP", "1700000000")]

/-- The freshly created snapshot object returned by CreateLunSnapshot
(scenario C). -/
def snapObjC6 : Obj := [("ID", "21"), ("USERCAPACITY", "200")]

/-- The re-fetched snapshot after creation (scenario C). -/
def snapC6c : Obj :=
  [("RUNNINGSTATUS", "active"), ("TIMESTAMP", "1700000001"), ("PARENTID", "7"),
   ("USERCAPACITY", "200")]

def cliC6a : Client :=
  { errClient with
    getLunByName := fun _ _ => .ok (some lunC6)
    getLunSnapshotByName := fun _ _ => .ok (some snapC6a) }

def cliC6b : Client :=
  { errClient with
    getLunByName := fun _ _ => .ok (some lunC6)
    getLunSnapshotByName := fun _ _ => .ok (some snapC6b) }

def cliC6c : Client :=
  { errClient with
    getLunByName := fun _ _ => .ok (some lunC6)
    getLunSnapshotByName := fun t _ =>
      if hasCreatedSnapshot t then .ok (some snapC6c) else .ok none
    createLunSnapshot := fun _ _ _ => .ok snapObjC6
    activateLunSnapshot := fun _ _ => .ok () }

def sanC6a : SAN :=
  { cli := cliC6a, metroRemoteCli := none, replicaRemoteCli := none,
    product := "DoradoV6", env := idEnv }

def sanC6b : SAN :=
  { cli := cliC6b, metroRemoteCli := none, replicaRemoteCli := none,
    product := "DoradoV6", env := idEnv }

def sanC6c : SAN :=
  { cli := cliC6c, metroRemoteCli := none, replicaRemoteCli := none,
    product := "DoradoV6", env := idEnv }

/-- Witness for C6 at concrete inputs: all three scenarios. -/
theorem C6_createSnapshot_witness :
    SAN.CreateSnapshot sanC6a "v1" "s1" [] =
      ([(ClientId.local, CallKind.getLunByName "v1"),
        (ClientId.local, CallKind.getLunSnapshotByName "s1")],
       .ok { CreationTime := 1700000000, SizeBytes := 102400, ParentID := "7" }) ∧
    SAN.CreateSnapshot sanC6b "v1" "s1" [] =
      ([(ClientId.local, CallKind.getLunByName "v1"),
        (ClientId.local, CallKind.getLunSnapshotByName "s1")],
       .error "Snapshot s1 is already exist, but the parent LUN v1 is incompatible") ∧
    SAN.CreateSnapshot sanC6c "v1" "s1" [] =
      ([(ClientId.local, CallKind.getLunByName "v1"),
        (ClientId.local, CallKind.getLunSnapshotByName "s1"),
        (ClientId.local, CallKind.createLunSnapshot "s1" "7"),
        (ClientId.local, CallKind.getLunSnapshotByName "s1"),
        (ClientId.local, CallKind.activateLunSnapshot "21"),
        (ClientId.local, CallKind.getLunSnapshotByName "s1")],
       .ok { CreationTime := 1700000001, SizeBytes := 102400, ParentID := "7" }) := by
  refine ⟨?_, ?_, ?_⟩
  · exact (C6_createSnapshot sanC6a "v1" "s1" "7" "9" "200" "21" lunC6 snapC6a snapC6a
      snapObjC6 (fun _ => rfl) rfl).1 (fun _ => rfl) rfl rfl
  · exact (C6_createSnapshot sanC6b "v1" "s1" "7" "9" "200" "21" lunC6 snapC6b snapC6b
      snapObjC6 (fun _ => rfl) rfl).2.1 (fun _ => rfl) rfl (by decide)
  · exact (C6_createSnapshot sanC6c "v1" "s1" "7" "9" "200" "21" lunC6 snapC6c snapC6c
      snapObjC6 (fun _ => rfl) rfl).2.2
      (fun t h => by simp [sanC6c, cliC6c, h]) (fun t h => by simp [sanC6c, cliC6c, h])
      (fun _ => rfl) rfl rfl rfl (fun _ => rfl)

/-! ### C2: DoradoV6 clone with a larger requested capacity -/

/-- C2 (amended): on the DoradoV6 family, a clone create whose requested
capacity is larger than the source LUN's performs, in this order: create
the destination LUN at the SOURCE's size, create the clone-pair, extend
the destination to the requested size, THEN sync the clone-pair, wait
until it reaches normal, then delete the clone-pair. (The claim's order
— extend after the wait — does not match the code: the extend happens
between pair creation and sync.) -/
theorem C2_clone_larger_order (san : SAN) (ps : Params)
    (srcName dstName srcID dstID cpID cs : String) (sc cap speed : Int)
    (srcLun dstLun cpObj pairDone : Obj)
    (hps1 : ps.lookupStr "clonefrom" = some srcName)
    (hps2 : ps.lookupStr "name" = some dstName)
    (hps3 : ps.lookupInt "capacity" = some cap)
    (hps4 : ps.lookupInt "clonespeed" = some speed)
    (hsrc : ∀ t, san.cli.getLunByName t srcName = .ok (some srcLun))
    (hdst : ∀ t, san.cli.getLunByName t dstName = .ok none)
    (hcs : srcLun.lookupKey "CAPACITY" = some cs)
    (hparse : goAtoi cs = some sc)
    (hlt : sc < cap)
    (hcreate : ∀ t q, san.cli.createLun t q = .ok dstLun)
    (hsrcID : srcLun.lookupKey "ID" = some srcID)
    (hdstID : dstLun.lookupKey "ID" = some dstID)
    (hcp : ∀ t, san.cli.createClonePair t srcID dstID speed = .ok cpObj)
    (hcpID : cpObj.lookupKey "ID" = some cpID)
    (hext : ∀ t, san.cli.extendLun t dstID cap = .ok ())
    (hsync : ∀ t, san.cli.syncClonePair t cpID = .ok ())
    (hinfo : ∀ t, san.cli.getClonePairInfo t cpID = .ok (some pairDone))
    (hfault : pairDone.getS "copyStatus" ≠ clonePairHealthStatusFault)
    (hnorm : pairDone.lookupKey "syncStatus" = some clonePairRunningStatusNormal)
    (hdel : ∀ t, san.cli.deleteClonePair t cpID = .ok ()) :
    SAN.clonePair san ps [] =
      ([(ClientId.local, CallKind.getLunByName srcName),
        (ClientId.local, CallKind.getLunByName dstName),
        (ClientId.local, CallKind.createLun (ps.set "capacity" (.n sc))),
        (ClientId.local, CallKind.createClonePair srcID dstID speed),
        (ClientId.local, CallKind.extendLun dstID cap),
        (ClientId.local, CallKind.syncClonePair cpID),
        (ClientId.local, CallKind.getClonePairInfo cpID),
        (ClientId.local, CallKind.deleteClonePair cpID)],
       .ok dstLun) := by
  have hnlt : ¬ (cap < sc) := by omega
  have hn : pairDone.getS "syncStatus" = clonePairRunningStatusNormal := by
    simp [Obj.getS, hnorm]
  have hwait : ∀ t, SAN.waitClonePairFinish san cpID t =
      (t ++ [(ClientId.local, CallKind.getClonePairInfo cpID),
             (ClientId.local, CallKind.deleteClonePair cpID)], .ok ()) := by
    intro t
    have hp : (TraceM.bind (san.cGetClonePairInfo .local cpID)
        (fun clonePair? => TraceM.ofExcept (clonePairCheck cpID clonePair?))) t =
        (t ++ [(ClientId.local, CallKind.getClonePairInfo cpID)], .ok true) := by
      simp [SAN.cGetClonePairInfo, SAN.call, SAN.clientOf, TraceM.bind,
        TraceM.ofExcept, hinfo, clonePairCheck, hfault, hn]
    have hw := waitUntil_done _ _ _ hp sixHourFuel (by decide)
    simp [SAN.waitClonePairFinish, Bind.bind, TraceM.bind, hw, TraceM.ignoring,
      SAN.cDeleteClonePair, SAN.call, SAN.clientOf, hdel]
  simp [SAN.clonePair, SAN.createClonePair, clonePairCheck,
    SAN.cGetLunByName, SAN.cCreateLun, SAN.cCreateClonePair, SAN.cExtendLun,
    SAN.cSyncClonePair, SAN.cGetClonePairInfo, SAN.cDeleteClonePair, SAN.call,
    SAN.clientOf, Bind.bind, TraceM.bind, TraceM.pure, TraceM.fail, TraceM.ofExcept,
    TraceM.onError, TraceM.ignoring, parseIntM, Params.str, Params.int, Obj.strM,
    hps1, hps2, hps3, hps4, hsrc, hdst, hcs, hparse, hnlt, hlt, hcreate, hsrcID, hdstID,
    hcp, hcpID, hext, hsync, hinfo, hfault, hn, hdel, hwait]

/-- Client for the C2 scenario (spec end-to-end scenario 2, sizes in
sectors: source 100, requested 200). -/
def cliC2 : Client :=
  { errClient with
    getPoolByName := fun _ n => if n = "P1" then .ok (some [("ID", "p1")]) else .ok none
    getLunByName := fun _ n =>
      if n = "s0" then .ok (some [("ID", "L0"), ("CAPACITY", "100")]) else .ok none
    createLun := fun _ _ => .ok [("ID", "L2"), ("WWN", "w2")]
    createClonePair := fun _ _ _ _ => .ok [("ID", "cp1")]
    extendLun := fun _ _ _ => .ok ()
    syncClonePair := fun _ _ => .ok ()
    getClonePairInfo := fun _ _ => .ok (some [("copyStatus", "ok"), ("syncStatus", "normal")])
    deleteClonePair := fun _ _ => .ok () }

def sanC2 : SAN :=
  { cli := cliC2, metroRemoteCli := none, replicaRemoteCli := none,
    product := "DoradoV6", env := idEnv }

/-- The spec's clone-larger request: clone v2 from s0 at twice the
source capacity. -/
def paramsC2 : Params :=
  [("name", .s "v2"), ("storagepool", .s "P1"), ("capacity", .n 200),
   ("clonefrom", .s "s0"), ("clonespeed", .s "2")]

/-- C2 counterexample: running the full Create on the spec's clone-larger
scenario succeeds, but the unique ExtendLun call (position 6 of the
trace) happens BEFORE the clone-pair sync (position 7) and before the
wait poll (position 8) — not after the pair reached normal, as the claim
states. -/
theorem C2_clone_larger_counterexample :
    (SAN.Create sanC2 paramsC2 []).2 = .ok { name := "v2", lunWWN := some "w2" } ∧
    (SAN.Create sanC2 paramsC2 []).1.get? 6 =
      some (ClientId.local, CallKind.extendLun "L2" 200) ∧
    (SAN.Create sanC2 paramsC2 []).1.get? 7 =
      some (ClientId.local, CallKind.syncClonePair "cp1") ∧
    (SAN.Create sanC2 paramsC2 []).1.get? 8 =
      some (ClientId.local, CallKind.getClonePairInfo "cp1") ∧
    (SAN.Create sanC2 paramsC2 []).1.get? 9 =
      some (ClientId.local, CallKind.deleteClonePair "cp1") ∧
    (SAN.Create sanC2 paramsC2 []).1.count
      (ClientId.local, CallKind.extendLun "L2" 200) = 1 := by
  refine ⟨?_, ?_, ?_, ?_, ?_, ?_⟩ <;> rfl

/-- Witness for the amended C2 theorem at the concrete scenario inputs. -/
theorem C2_clone_larger_order_witness :
    SAN.clonePair sanC2
      [("clonefrom", .s "s0"), ("name", .s "v2"), ("capacity", .n 200), ("clonespeed", .n 2)] [] =
      ([(ClientId.local, CallKind.getLunByName "s0"),
        (ClientId.local, CallKind.getLunByName "v2"),
        (ClientId.local, CallKind.createLun
          (Params.set [("clonefrom", .s "s0"), ("name", .s "v2"), ("capacity", .n 200),
            ("clonespeed", .n 2)] "capacity" (.n 100))),
        (ClientId.local, CallKind.createClonePair "L0" "L2" 2),
        (ClientId.local, CallKind.extendLun "L2" 200),
        (ClientId.local, CallKind.syncClonePair "cp1"),
        (ClientId.local, CallKind.getClonePairInfo "cp1"),
        (ClientId.local, CallKind.deleteClonePair "cp1")],
       .ok [("ID", "L2"), ("WWN", "w2")]) :=
  C2_clone_larger_order sanC2
    [("clonefrom", .s "s0"), ("name", .s "v2"), ("capacity", .n 200), ("clonespeed", .n 2)]
    "s0" "v2" "L0" "L2" "cp1" "100" 100 200 2
    [("ID", "L0"), ("CAPACITY", "100")] [("ID", "L2"), ("WWN", "w2")] [("ID", "cp1")]
    [("copyStatus", "ok"), ("syncStatus", "normal")]
    rfl rfl rfl rfl (fun _ => rfl) (fun _ => rfl) rfl rfl (by decide)
    (fun _ _ => rfl) rfl rfl (fun _ => rfl) rfl (fun _ => rfl) (fun _ => rfl)
    (fun _ => rfl) (by decide) rfl (fun _ => rfl)

/-! ### C1: replication/hypermetro mutual exclusion

The check sits in `SAN.Create` AFTER `preCreate`, which resolves the
storage pool (and possibly the application type) through the array
client. So Create does fail, but read-only array calls can precede the
failure. The framework below shows every call made on the way to the
check is a read. -/

/-- The calls recorded by a computation extend the trace and are all
read-only. -/
def ReadsOnly (m : M α) : Prop :=
  ∀ t, ∃ δ, (m t).1 = t ++ δ ∧ ∀ c ∈ δ, CallKind.isRead c.2 = true

theorem readsOnly_pure (a : α) : ReadsOnly (TraceM.pure a : M α) :=
  fun t => ⟨[], by simp [TraceM.pure], by simp⟩

theorem readsOnly_fail (e : String) : ReadsOnly (TraceM.fail e : M α) :=
  fun t => ⟨[], by simp [TraceM.fail], by simp⟩

theorem readsOnly_ofExcept (r : ERes α) : ReadsOnly (TraceM.ofExcept r : M α) :=
  fun t => ⟨[], by simp [TraceM.ofExcept], by simp⟩

theorem readsOnly_bind {m : M α} {f : α → M β} (hm : ReadsOnly m)
    (hf : ∀ a, ReadsOnly (f a)) : ReadsOnly (m >>= f) := by
  intro t
  rcases hm t with ⟨δ1, h1, hr1⟩
  rcases hmt : m t with ⟨t1, r⟩
  rw [hmt] at h1
  simp only at h1
  subst h1
  cases r with
  | ok a =>
    rcases hf a (t ++ δ1) with ⟨δ2, h2, hr2⟩
    refine ⟨δ1 ++ δ2, ?_, ?_⟩
    · show (TraceM.bind m f t).1 = _
      simp [TraceM.bind, hmt, h2, List.append_assoc]
    · intro c hc
      rcases List.mem_append.mp hc with h | h
      · exact hr1 c h
      · exact hr2 c h
  | error e =>
    refine ⟨δ1, ?_, hr1⟩
    show (TraceM.bind m f t).1 = _
    simp [TraceM.bind, hmt]

theorem readsOnly_call (san : SAN) (cid : ClientId) (k : CallKind)
    (f : Client → Trace → ERes α) (hk : k.isRead = true) :
    ReadsOnly (san.call cid k f) := by
  intro t
  unfold SAN.call
  rcases h : san.clientOf cid with _ | c
  · exact ⟨[], by simp [h], by simp⟩
  · exact ⟨[(cid, k)], by simp [h], by simp [hk]⟩

theorem readsOnly_strM (o : Obj) (k : String) : ReadsOnly (o.strM k) := by
  unfold Obj.strM
  split
  · exact readsOnly_pure _
  · exact readsOnly_fail _

theorem readsOnly_paramsStr (p : Params) (k : String) : ReadsOnly (p.str k) := by
  unfold Params.str
  split
  · exact readsOnly_pure _
  · exact readsOnly_fail _

theorem readsOnly_getPoolID (san : SAN) (params : Params) :
    ReadsOnly (Base.getPoolID san params) := by
  unfold Base.getPoolID
  split
  · exact readsOnly_fail _
  · split
    · exact readsOnly_fail _
    · refine readsOnly_bind (readsOnly_call san _ _ _ rfl) (fun pool? => ?_)
      split
      · exact readsOnly_fail _
      · exact readsOnly_bind (readsOnly_strM _ _) (fun _ => readsOnly_pure _)

theorem readsOnly_commonPreCreate (san : SAN) (params : Params) :
    ReadsOnly (Base.commonPreCreate san params) := by
  unfold Base.commonPreCreate
  refine readsOnly_bind (readsOnly_ofExcept _) (fun p1 => ?_)
  refine readsOnly_bind (readsOnly_ofExcept _) (fun p2 => ?_)
  exact readsOnly_bind (readsOnly_getPoolID san p2) (fun p3 => readsOnly_ofExcept _)

theorem readsOnly_getWorkLoadIDByName (san : SAN) (cid : ClientId) (name : String) :
    ReadsOnly (Base.getWorkLoadIDByName san cid name) := by
  unfold Base.getWorkLoadIDByName
  refine readsOnly_bind (readsOnly_call san _ _ _ rfl) (fun id => ?_)
  split
  · exact readsOnly_fail _
  · exact readsOnly_pure _

theorem readsOnly_setWorkLoadID (san : SAN) (cid : ClientId) (params : Params) :
    ReadsOnly (Base.setWorkLoadID san cid params) := by
  unfold Base.setWorkLoadID
  split
  · exact readsOnly_bind (readsOnly_getWorkLoadIDByName san cid _)
      (fun _ => readsOnly_pure _)
  · exact readsOnly_pure _

theorem readsOnly_preCreate (san : SAN) (params : Params) :
    ReadsOnly (san.preCreate params) := by
  unfold SAN.preCreate
  refine readsOnly_bind (readsOnly_commonPreCreate san params) (fun p1 => ?_)
  refine readsOnly_bind (readsOnly_paramsStr _ _) (fun name => ?_)
  dsimp only
  split
  · exact readsOnly_bind (readsOnly_pure _) (fun p2 => readsOnly_setWorkLoadID san _ p2)
  · split
    · exact readsOnly_bind (readsOnly_pure _) (fun p2 => readsOnly_setWorkLoadID san _ p2)
    · split
      · exact readsOnly_bind (readsOnly_pure _) (fun p2 => readsOnly_setWorkLoadID san _ p2)
      · exact readsOnly_bind (readsOnly_pure _) (fun p2 => readsOnly_setWorkLoadID san _ p2)

/-- Inverts a successful bind into its two successful halves. -/
theorem bind_ok_elim {m : M α} {f : α → M β} {t tf : Trace} {b : β}
    (h : (m >>= f) t = (tf, .ok b)) :
    ∃ t1 a, m t = (t1, .ok a) ∧ f a t1 = (tf, .ok b) := by
  rcases hmt : m t with ⟨t1, r⟩
  cases r with
  | ok a =>
    refine ⟨t1, a, rfl, ?_⟩
    have : (m >>= f) t = f a t1 := by
      show TraceM.bind m f t = _
      simp [TraceM.bind, hmt]
    rw [this] at h
    exact h
  | error e =>
    have : (m >>= f) t = (t1, .error e) := by
      show TraceM.bind m f t = _
      simp [TraceM.bind, hmt]
    rw [this] at h
    simp at h

/-- The "replication" and "hypermetro" entries of `q` agree with those
of `p`. -/
def flagsEq (p q : Params) : Prop :=
  q.lookupBool "replication" = p.lookupBool "replication" ∧
  q.lookupBool "hypermetro" = p.lookupBool "hypermetro"

theorem flagsEq_refl (p : Params) : flagsEq p p := ⟨rfl, rfl⟩

theorem flagsEq_trans {p q r : Params} (h1 : flagsEq p q) (h2 : flagsEq q r) : flagsEq p r :=
  ⟨h2.1.trans h1.1, h2.2.trans h1.2⟩

theorem Params.lookupBool_set_ne (p : Params) (k k' : String) (v : Value) (h : k ≠ k') :
    (p.set k v).lookupBool k' = p.lookupBool k' := by
  simp [Params.lookupBool, Params.lookup_set_ne p k k' v h]

theorem flagsEq_set (p : Params) (k : String) (v : Value)
    (h1 : k ≠ "replication") (h2 : k ≠ "hypermetro") : flagsEq p (p.set k v) :=
  ⟨Params.lookupBool_set_ne p k _ v h1, Params.lookupBool_set_ne p k _ v h2⟩

theorem flags_getAllocType {params r : Params} (h : Base.getAllocType params = .ok r) :
    flagsEq params r := by
  unfold Base.getAllocType at h
  split at h
  · split at h <;>
      (simp only [Except.ok.injEq] at h; subst h; exact flagsEq_set _ _ _ (by decide) (by decide))
  · simp only [Except.ok.injEq] at h
    subst h
    exact flagsEq_set _ _ _ (by decide) (by decide)

theorem flags_getCloneSpeed {params r : Params} (h : Base.getCloneSpeed params = .ok r) :
    flagsEq params r := by
  unfold Base.getCloneSpeed at h
  dsimp only at h
  split at h
  · simp only [Except.ok.injEq] at h
    subst h
    exact flagsEq_refl _
  · split at h
    · split at h
      · split at h
        · split at h
          · simp at h
          · simp only [Except.ok.injEq] at h
            subst h
            exact flagsEq_set _ _ _ (by decide) (by decide)
        · simp at h
      · simp only [Except.ok.injEq] at h
        subst h
        exact flagsEq_set _ _ _ (by decide) (by decide)
    · simp only [Except.ok.injEq] at h
      subst h
      exact flagsEq_set _ _ _ (by decide) (by decide)

theorem flags_getQoS {san : SAN} {params r : Params} (h : Base.getQoS san params = .ok r) :
    flagsEq params r := by
  unfold Base.getQoS at h
  split at h
  · split at h
    · split at h
      · simp at h
      · split at h
        · simp at h
        · simp only [Except.ok.injEq] at h
          subst h
          exact flagsEq_set _ _ _ (by decide) (by decide)
    · simp only [Except.ok.injEq] at h
      subst h
      exact flagsEq_refl _
  · simp only [Except.ok.injEq] at h
    subst h
    exact flagsEq_refl _

theorem pure_ok_elim {a b : α} {t tf : Trace} (h : TraceM.pure a t = (tf, Except.ok b)) :
    tf = t ∧ b = a := by
  simp [TraceM.pure] at h
  exact ⟨h.1.symm, h.2.symm⟩

theorem ofExcept_ok_elim {r : ERes α} {t tf : Trace} {b : α}
    (h : TraceM.ofExcept r t = (tf, Except.ok b)) : tf = t ∧ r = .ok b := by
  simp [TraceM.ofExcept] at h
  exact ⟨h.1.symm, by rw [h.2]⟩

theorem flags_getPoolID {san : SAN} {params : Params} {t tf : Trace} {r : Params}
    (h : Base.getPoolID san params t = (tf, .ok r)) : flagsEq params r := by
  unfold Base.getPoolID at h
  rcases hx : params.lookupStr "storagepool" with _ | poolName
  all_goals simp only [hx] at h
  · simp [TraceM.fail] at h
  · by_cases hpn : poolName = ""
    · rw [if_pos hpn] at h
      simp [TraceM.fail] at h
    · rw [if_neg hpn] at h
      rcases bind_ok_elim h with ⟨t1, pool?, h1, h2⟩
      cases pool? with
      | none =>
        dsimp only at h2
        simp [TraceM.fail] at h2
      | some pool =>
        dsimp only at h2
        rcases bind_ok_elim h2 with ⟨t2, poolID, h3, h4⟩
        rcases pure_ok_elim h4 with ⟨rfl, rfl⟩
        exact flagsEq_set _ _ _ (by decide) (by decide)

theorem flags_commonPreCreate {san : SAN} {params : Params} {t tf : Trace} {r : Params}
    (h : Base.commonPreCreate san params t = (tf, .ok r)) : flagsEq params r := by
  unfold Base.commonPreCreate at h
  rcases bind_ok_elim h with ⟨t1, p1, h1, h2⟩
  rcases bind_ok_elim h2 with ⟨t2, p2, h3, h4⟩
  rcases bind_ok_elim h4 with ⟨t3, p3, h5, h6⟩
  rcases ofExcept_ok_elim h1 with ⟨rfl, ha⟩
  rcases ofExcept_ok_elim h3 with ⟨rfl, hb⟩
  rcases ofExcept_ok_elim h6 with ⟨rfl, hc⟩
  exact flagsEq_trans (flags_getAllocType ha)
    (flagsEq_trans (flags_getCloneSpeed hb)
      (flagsEq_trans (flags_getPoolID h5) (flags_getQoS hc)))

theorem flags_setWorkLoadID {san : SAN} {cid : ClientId} {params : Params} {t tf : Trace}
    {r : Params} (h : Base.setWorkLoadID san cid params t = (tf, .ok r)) :
    flagsEq params r := by
  unfold Base.setWorkLoadID at h
  rcases hx : params.lookupStr "applicationtype" with _ | val
  all_goals simp only [hx] at h
  · rcases pure_ok_elim h with ⟨rfl, rfl⟩
    exact flagsEq_refl _
  · rcases bind_ok_elim h with ⟨t1, id, h1, h2⟩
    rcases pure_ok_elim h2 with ⟨rfl, rfl⟩
    exact flagsEq_set _ _ _ (by decide) (by decide)

theorem flags_str_ok {p : Params} {k : String} {t tf : Trace} {v : String}
    (h : p.str k t = (tf, .ok v)) : tf = t := by
  unfold Params.str at h
  rcases hx : p.lookupStr k with _ | s
  all_goals simp only [hx] at h
  · simp [TraceM.fail] at h
  · exact (pure_ok_elim h).1

theorem flags_preCreate {san : SAN} {params : Params} {t tf : Trace} {r : Params}
    (h : san.preCreate params t = (tf, .ok r)) : flagsEq params r := by
  unfold SAN.preCreate at h
  rcases bind_ok_elim h with ⟨t1, p1, h1, h2⟩
  rcases bind_ok_elim h2 with ⟨t2, name, h3, h4⟩
  have base : flagsEq params (p1.set "name" (.s (san.env.getLunName name))) :=
    flagsEq_trans (flags_commonPreCreate h1) (flagsEq_set _ _ _ (by decide) (by decide))
  dsimp only at h4
  generalize hq : p1.set "name" (Value.s (san.env.getLunName name)) = q at h4 base
  rcases hx1 : q.lookupStr "sourcevolumename" with _ | v1
  all_goals simp only [hx1] at h4
  · rcases hx2 : q.lookupStr "sourcesnapshotname" with _ | v2
    all_goals simp only [hx2] at h4
    · rcases hx3 : q.lookupStr "clonefrom" with _ | v3
      all_goals simp only [hx3] at h4
      · rcases bind_ok_elim h4 with ⟨t3, p2, h5, h6⟩
        rcases pure_ok_elim h5 with ⟨rfl, rfl⟩
        exact flagsEq_trans base (flags_setWorkLoadID h6)
      · rcases bind_ok_elim h4 with ⟨t3, p2, h5, h6⟩
        rcases pure_ok_elim h5 with ⟨rfl, rfl⟩
        exact flagsEq_trans base (flagsEq_trans (flagsEq_set _ _ _ (by decide) (by decide))
          (flags_setWorkLoadID h6))
    · rcases bind_ok_elim h4 with ⟨t3, p2, h5, h6⟩
      rcases pure_ok_elim h5 with ⟨rfl, rfl⟩
      exact flagsEq_trans base (flagsEq_trans (flagsEq_set _ _ _ (by decide) (by decide))
        (flags_setWorkLoadID h6))
  · rcases bind_ok_elim h4 with ⟨t3, p2, h5, h6⟩
    rcases pure_ok_elim h5 with ⟨rfl, rfl⟩
    exact flagsEq_trans base (flagsEq_trans (flagsEq_set _ _ _ (by decide) (by decide))
      (flags_setWorkLoadID h6))

/-- C1 (amended): for every parameter map with both replication=true and
hypermetro=true, SAN Create fails (with the mutual-exclusion error when
normalization succeeds, with the normalization error otherwise), and
every array call made before the failure is read-only — the parameter
normalization that precedes the check may issue read-only lookups
(GetPoolByName, GetApplicationTypeByName), but no mutating call is ever
made and no task of the create flow runs. -/
theorem C1_mirror_mutual_exclusion (san : SAN) (params : Params)
    (hrep : params.lookup "replication" = some (.b true))
    (hhm : params.lookup "hypermetro" = some (.b true)) :
    (∃ e, (SAN.Create san params []).2 = .error e) ∧
    ∀ c ∈ (SAN.Create san params []).1, c.2.isRead = true := by
  rcases readsOnly_preCreate san params [] with ⟨δ, hδ, hreads⟩
  rcases hpc : san.preCreate params [] with ⟨t1, r⟩
  rw [hpc] at hδ
  simp only [List.nil_append] at hδ
  subst hδ
  cases r with
  | error e =>
    have hrun : SAN.Create san params [] = (t1, .error e) := by
      unfold SAN.Create
      show TraceM.bind (san.preCreate params) _ [] = _
      simp [TraceM.bind, hpc]
    rw [hrun]
    exact ⟨⟨e, rfl⟩, hreads⟩
  | ok ps =>
    have hflags := flags_preCreate hpc
    have h1 : ps.lookupBool "replication" = some true := by
      rw [hflags.1]
      simp [Params.lookupBool, hrep]
    have h2 : ps.lookupBool "hypermetro" = some true := by
      rw [hflags.2]
      simp [Params.lookupBool, hhm]
    have hrun : SAN.Create san params [] =
        (t1, .error "cannot create replication and hypermetro for a volume at the same time") := by
      unfold SAN.Create
      show TraceM.bind (san.preCreate params) _ [] = _
      simp [TraceM.bind, hpc, h1, h2, TraceM.fail]
    rw [hrun]
    exact ⟨⟨_, rfl⟩, hreads⟩

/-- Client for the C1 scenario: only the storage pool P1 exists. -/
def cliC1 : Client :=
  { errClient with
    getPoolByName := fun _ n => if n = "P1" then .ok (some [("ID", "p1")]) else .ok none }

def sanC1 : SAN :=
  { cli := cliC1, metroRemoteCli := none, replicaRemoteCli := none,
    product := "DoradoV6", env := idEnv }

/-- A request asking for both mirror modes at once. -/
def paramsC1 : Params :=
  [("name", .s "v1"), ("storagepool", .s "P1"), ("replication", .b true),
   ("hypermetro", .b true)]

/-- C1 counterexample: with both replication and hypermetro requested,
Create does fail with the mutual-exclusion error, but an array call IS
made before the failure — parameter normalization resolves the storage
pool via GetPoolByName — contradicting the claim that no client method
is invoked before the failure is returned. -/
theorem C1_mirror_mutual_exclusion_counterexample :
    SAN.Create sanC1 paramsC1 [] =
      ([(ClientId.local, CallKind.getPoolByName "P1")],
       .error "cannot create replication and hypermetro for a volume at the same time") ∧
    (SAN.Create sanC1 paramsC1 []).1 ≠ [] := by
  constructor
  · rfl
  · intro h
    rw [show (SAN.Create sanC1 paramsC1 []).1 =
        [(ClientId.local, CallKind.getPoolByName "P1")] from rfl] at h
    cases h

/-- Witness for the amended C1 theorem at the concrete scenario. -/
theorem C1_mirror_mutual_exclusion_witness :
    (∃ e, (SAN.Create sanC1 paramsC1 []).2 = .error e) ∧
    ∀ c ∈ (SAN.Create sanC1 paramsC1 []).1, c.2.isRead = true :=
  C1_mirror_mutual_exclusion sanC1 paramsC1 rfl rfl

end HuaweiCSI
